import Mathlib

/-!
Shallow embedding of the capypdf PDF-writer core (src/pdfdocument.cpp,
src/drawcontext.hpp) together with proofs about the frozen claims.

Conventions of the embedding:
* C++ `std::string` byte buffers that carry binary stream data are modelled
  as `List Nat` (one entry per byte); text dictionaries are modelled as
  `String`.  Numeric text formatting (`fmt` with `{:f}` etc.) is abbreviated
  to a plain `toString`, because no claim depends on the exact digits of a
  dictionary entry.
* C++ member functions mutate `*this`; here every operation takes the state
  and returns the new state.  A fallible operation returns the state it left
  behind paired with its result, so that "the state is unchanged on failure"
  is a provable statement rather than a modelling artefact.
* `double` arithmetic is modelled over `ℚ`; the claims settled here depend
  only on order comparisons and exact ratios, not on IEEE rounding.
* `std::abort()` (and a failed `assert` in a debug build) is modelled by the
  distinguished outcome `COut.abort`.
-/

namespace Capypdf

/-- Error kinds of errorhandling.hpp as enumerated in the spec's error
taxonomy (section 7). -/
inductive PdfErr where
  | ColorOutOfRange
  | ColorspaceMismatch
  | OutputProfileMissing
  | MissingIntentIdentifier
  | AnnotationReuse
  | StructureReuse
  | RoleAlreadyDefined
  | SlashStart
  | NestedBMC
  | DrawStateEndMismatch
  | UnclosedMarkedContent
  | InvalidDrawContextType
  | IncorrectDocumentForObject
  | MissingGlyph
  | UnsupportedFormat
  | InvalidImageSize
  | MissingPixels
  | MaskAndAlpha
  | NoCmykProfile
  | IndexOutOfBounds
  | Unreachable
  deriving DecidableEq, Repr

/-- Outcome of running a piece of the C++ code: a value, a recoverable error
(the rvoe return discipline), or process termination via std::abort. -/
inductive COut (α : Type) where
  | ok (a : α)
  | err (e : PdfErr)
  | abort
  deriving DecidableEq, Repr

/-- CapyPDF_Colorspace (CAPY_CS_DEVICE_RGB / _GRAY / _CMYK). -/
inductive Colorspace where
  | deviceRGB
  | deviceGray
  | deviceCMYK
  deriving DecidableEq, Repr

/-- The names written for each device colorspace (pdfdocument.cpp:71). -/
def colorspace_names : Colorspace → String
  | .deviceRGB => "/DeviceRGB"
  | .deviceGray => "/DeviceGray"
  | .deviceCMYK => "/DeviceCMYK"

structure DeviceRGBColor where
  r : ℚ
  g : ℚ
  b : ℚ
  deriving DecidableEq, Repr

structure DeviceGrayColor where
  v : ℚ
  deriving DecidableEq, Repr

structure DeviceCMYKColor where
  c : ℚ
  m : ℚ
  y : ℚ
  k : ℚ
  deriving DecidableEq, Repr

/-- The Color variant (spec section 9: tagged variant over device colors,
ICC, Lab, separation and pattern colors).  The payloads of the non-device
constructors are never inspected by the code embedded here. -/
inductive Color where
  | rgb (c : DeviceRGBColor)
  | gray (c : DeviceGrayColor)
  | cmyk (c : DeviceCMYKColor)
  | lab (l a b : ℚ)
  | iccColor (id : Nat) (values : List ℚ)
  | separation (id : Nat) (value : ℚ)
  | patternColor (id : Nat)
  deriving DecidableEq, Repr

/-! ## Draw context state machine (drawcontext.hpp) -/

/-- DrawStateType (drawcontext.hpp:63). -/
inductive DrawStateType where
  | markedContent
  | saveState
  | text
  deriving DecidableEq, Repr

/-- CapyPDF_Draw_Context_Type. -/
inductive DrawContextType where
  | page
  | colorTiling
  | formXObject
  | transparencyGroup
  deriving DecidableEq, Repr

/-- The state of a PdfDrawContext (drawcontext.hpp:69) restricted to the
fields the claims exercise.  The C++ object holds a back-pointer to its
PdfDocument; pointer identity is modelled by the numeric tag `docId`.
The C++ `dstate_stack` is a vector whose back is the stack top; here the
list head is the top.  The resource sets are not modelled because no claim
depends on the resource dictionary's contents. -/
structure PdfDrawContext where
  docId : Nat
  context_type : DrawContextType
  commands : String
  dstate_stack : List DrawStateType
  ind : String
  marked_depth : Int
  bbox_w : ℚ
  bbox_h : ℚ
  deriving DecidableEq, Repr

/-- PdfDrawContext::indent (drawcontext.hpp:256): opening a marked-content
entry while any stack entry is already MarkedContent fails with NestedBMC;
otherwise the entry is pushed and the indentation grows by two spaces.
The returned context is the state the member function left behind. -/
def PdfDrawContext.indent (ctx : PdfDrawContext) (dtype : DrawStateType) :
    PdfDrawContext × COut Unit :=
  if dtype = .markedContent ∧ ctx.dstate_stack.contains .markedContent then
    (ctx, .err .NestedBMC)
  else
    ({ ctx with
        dstate_stack := dtype :: ctx.dstate_stack
        ind := ctx.ind ++ "  " }, .ok ())

/-- PdfDrawContext::dedent (drawcontext.hpp:269): fails with
DrawStateEndMismatch on an empty stack or a mismatched top entry; aborts if
the indentation is structurally impossible; otherwise pops the entry and
drops two indentation characters. -/
def PdfDrawContext.dedent (ctx : PdfDrawContext) (dtype : DrawStateType) :
    PdfDrawContext × COut Unit :=
  match ctx.dstate_stack with
  | [] => (ctx, .err .DrawStateEndMismatch)
  | top :: rest =>
    if top ≠ dtype then
      (ctx, .err .DrawStateEndMismatch)
    else if ctx.ind.length < 2 then
      (ctx, .abort)
    else
      ({ ctx with dstate_stack := rest, ind := ctx.ind.dropRight 2 }, .ok ())

/-- Modelled from the spec: the body of PdfDrawContext::cmd_BMC lives in
pdfdrawcontext.cpp, which is not among the sources.  Per spec section 4.2 it
validates nesting through indent and then emits the BMC operator into the
command buffer, bumping the marked-content depth. -/
def PdfDrawContext.cmd_BMC (ctx : PdfDrawContext) (tag : String) :
    PdfDrawContext × COut Unit :=
  match ctx.indent .markedContent with
  | (c, .ok _) =>
    ({ c with
        commands := c.commands ++ ctx.ind ++ "BMC /" ++ tag ++ "\n"
        marked_depth := c.marked_depth + 1 }, .ok ())
  | (c, r) => (c, r)

/-- Modelled from the spec: the body of PdfDrawContext::cmd_BDC (the plain
tag-with-properties form) lives in pdfdrawcontext.cpp, which is not among
the sources.  Per spec section 4.2 it validates nesting through indent and
then emits the BDC operator with its property list. -/
def PdfDrawContext.cmd_BDC (ctx : PdfDrawContext) (tag props : String) :
    PdfDrawContext × COut Unit :=
  match ctx.indent .markedContent with
  | (c, .ok _) =>
    ({ c with
        commands := c.commands ++ ctx.ind ++ "BDC /" ++ tag ++ " " ++ props ++ "\n"
        marked_depth := c.marked_depth + 1 }, .ok ())
  | (c, r) => (c, r)

/-- Modelled from the spec: the body of PdfDrawContext::cmd_Q lives in
pdfdrawcontext.cpp, which is not among the sources.  Per spec section 4.2
the Q operator pops a SaveState entry via dedent and emits Q. -/
def PdfDrawContext.cmd_Q (ctx : PdfDrawContext) : PdfDrawContext × COut Unit :=
  match ctx.dedent .saveState with
  | (c, .ok _) => ({ c with commands := c.commands ++ c.ind ++ "Q\n" }, .ok ())
  | (c, r) => (c, r)

/-- Modelled from the spec: the body of PdfDrawContext::cmd_ET lives in
pdfdrawcontext.cpp, which is not among the sources.  Per spec section 4.2
the ET operator pops a Text entry via dedent and emits ET. -/
def PdfDrawContext.cmd_ET (ctx : PdfDrawContext) : PdfDrawContext × COut Unit :=
  match ctx.dedent .text with
  | (c, .ok _) => ({ c with commands := c.commands ++ c.ind ++ "ET\n" }, .ok ())
  | (c, r) => (c, r)

/-- Modelled from the spec: the body of PdfDrawContext::cmd_EMC lives in
pdfdrawcontext.cpp, which is not among the sources.  Per spec section 4.2
the EMC operator pops a MarkedContent entry via dedent, emits EMC and
decrements the marked-content depth. -/
def PdfDrawContext.cmd_EMC (ctx : PdfDrawContext) : PdfDrawContext × COut Unit :=
  match ctx.dedent .markedContent with
  | (c, .ok _) =>
    ({ c with
        commands := c.commands ++ c.ind ++ "EMC\n"
        marked_depth := c.marked_depth - 1 }, .ok ())
  | (c, r) => (c, r)

/-! ## Shading serialization (pdfdocument.cpp:77-181) -/

/-- Error propagation from rvoe-returning helpers (the ERCV macro). -/
def liftE : Except PdfErr α → COut α
  | .ok a => .ok a
  | .error e => .err e

/-- Big-endian encoding of a natural number in w bytes.  The source computes
the scaled value in the machine's native order and byteswaps it before
appending, which on a little-endian machine yields exactly the big-endian
bytes. -/
def beBytes : Nat → Nat → List Nat
  | 0, _ => []
  | w + 1, n => beBytes w (n / 256) ++ [n % 256]

/-- append_floatvalue of pdfdocument.cpp:77: range-check the value, scale it
to the maximum of the w-byte unsigned integer type (the double-to-integer
conversion truncates), byteswap, and append the bytes. -/
def append_floatvalue (w : Nat) (buf : List Nat) (v : ℚ) : Except PdfErr (List Nat) :=
  if v < 0 ∨ v > 1 then .error .ColorOutOfRange
  else .ok (buf ++ beBytes w (Int.toNat ⌊(2 ^ (8 * w) - 1 : ℚ) * v⌋))

def appendFloat (w : Nat) (buf : List Nat) (v : ℚ) : COut (List Nat) :=
  liftE (append_floatvalue w buf v)

structure PdfPoint where
  x : ℚ
  y : ℚ
  deriving DecidableEq, Repr

/-- A vertex of a type 4 shading: a point and its color. -/
structure ShadingPoint where
  p : PdfPoint
  c : Color
  deriving DecidableEq, Repr

/-- One element of a type 4 shading: an edge flag and a colored vertex. -/
structure ShadingElement where
  flag : Nat
  sp : ShadingPoint
  deriving DecidableEq, Repr

structure ShadingType4 where
  minx : ℚ
  miny : ℚ
  maxx : ℚ
  maxy : ℚ
  colorspace : Colorspace
  elements : List ShadingElement
  deriving DecidableEq, Repr

/-- A full Coons patch: 12 control points and 4 corner colors (the C++ type
carries fixed-size arrays; here lists of that length). -/
structure FullCoonsPatch where
  p : List PdfPoint
  c : List Color
  deriving DecidableEq, Repr

/-- One element of a type 6 shading: either a full Coons patch or a
continuation patch (a patch sharing an edge with its predecessor; its C++
type is not among the sources, so its payload is kept abstract — the code
embedded here never inspects it). -/
inductive CoonsPatchElement where
  | full (patch : FullCoonsPatch)
  | continuation (ps : List PdfPoint) (cs : List Color)
  deriving DecidableEq, Repr

structure ShadingType6 where
  minx : ℚ
  miny : ℚ
  maxx : ℚ
  maxy : ℚ
  colorspace : Colorspace
  elements : List CoonsPatchElement
  deriving DecidableEq, Repr

/-- The color dispatch of serialize_shade4 (pdfdocument.cpp:101-124): the
color variant is examined first and compared against the shade's declared
colorspace; 16-bit channel values are appended on a match; the color
variants the serializer does not support abort the process. -/
def serialize_shade4_color (cs : Colorspace) (c : Color) (s : List Nat) :
    COut (List Nat) :=
  match c with
  | .rgb c =>
    if cs ≠ .deviceRGB then .err .ColorspaceMismatch
    else
      match appendFloat 2 s c.r with
      | .ok s =>
        match appendFloat 2 s c.g with
        | .ok s => appendFloat 2 s c.b
        | r => r
      | r => r
  | .gray c =>
    if cs ≠ .deviceGray then .err .ColorspaceMismatch
    else appendFloat 2 s c.v
  | .cmyk c =>
    if cs ≠ .deviceCMYK then .err .ColorspaceMismatch
    else
      match appendFloat 2 s c.c with
      | .ok s =>
        match appendFloat 2 s c.m with
        | .ok s =>
          match appendFloat 2 s c.y with
          | .ok s => appendFloat 2 s c.k
          | r => r
        | r => r
      | r => r
  | _ => .abort

/-- One iteration of the serialize_shade4 element loop (pdfdocument.cpp:90):
one flag byte, two 32-bit big-endian coordinates expressed as fractions of
the declared bounding box, then the color channels. -/
def serialize_shade4_elem (shade : ShadingType4) (s : List Nat)
    (e : ShadingElement) : COut (List Nat) :=
  let xratio := (e.sp.p.x - shade.minx) / (shade.maxx - shade.minx)
  let yratio := (e.sp.p.y - shade.miny) / (shade.maxy - shade.miny)
  let s := s ++ [e.flag % 256]
  match appendFloat 4 s xratio with
  | .ok s =>
    match appendFloat 4 s yratio with
    | .ok s => serialize_shade4_color shade.colorspace e.sp.c s
    | r => r
  | r => r

def serialize_shade4_loop (shade : ShadingType4) (s : List Nat) :
    List ShadingElement → COut (List Nat)
  | [] => .ok s
  | e :: rest =>
    match serialize_shade4_elem shade s e with
    | .ok s => serialize_shade4_loop shade s rest
    | r => r

/-- serialize_shade4 (pdfdocument.cpp:88). -/
def serialize_shade4 (shade : ShadingType4) : COut (List Nat) :=
  serialize_shade4_loop shade [] shade.elements

/-- The coordinate loop of serialize_shade6 (pdfdocument.cpp:143): each
control point contributes two 32-bit big-endian bounding-box fractions. -/
def serialize_shade6_points (shade : ShadingType6) (s : List Nat) :
    List PdfPoint → COut (List Nat)
  | [] => .ok s
  | p :: rest =>
    match appendFloat 4 s ((p.x - shade.minx) / (shade.maxx - shade.minx)) with
    | .ok s =>
      match appendFloat 4 s ((p.y - shade.miny) / (shade.maxy - shade.miny)) with
      | .ok s => serialize_shade6_points shade s rest
      | r => r
    | r => r

/-- The color dispatch of serialize_shade6 (pdfdocument.cpp:150-177): the
declared colorspace is examined first and the corner color must hold the
matching variant.  The C++ else branch for a colorspace outside the device
enum aborts and is unreachable over the three-valued enum. -/
def serialize_shade6_color (cs : Colorspace) (s : List Nat) (colorobj : Color) :
    COut (List Nat) :=
  match cs with
  | .deviceRGB =>
    match colorobj with
    | .rgb c =>
      match appendFloat 2 s c.r with
      | .ok s =>
        match appendFloat 2 s c.g with
        | .ok s => appendFloat 2 s c.b
        | r => r
      | r => r
    | _ => .err .ColorspaceMismatch
  | .deviceGray =>
    match colorobj with
    | .gray c => appendFloat 2 s c.v
    | _ => .err .ColorspaceMismatch
  | .deviceCMYK =>
    match colorobj with
    | .cmyk c =>
      match appendFloat 2 s c.c with
      | .ok s =>
        match appendFloat 2 s c.m with
        | .ok s =>
          match appendFloat 2 s c.y with
          | .ok s => appendFloat 2 s c.k
          | r => r
        | r => r
      | r => r
    | _ => .err .ColorspaceMismatch

def serialize_shade6_colors (cs : Colorspace) (s : List Nat) :
    List Color → COut (List Nat)
  | [] => .ok s
  | c :: rest =>
    match serialize_shade6_color cs s c with
    | .ok s => serialize_shade6_colors cs s rest
    | r => r

/-- The element loop of serialize_shade6 (pdfdocument.cpp:131): an element
that is not a full Coons patch aborts the process ("Continuation patches not
yet supported"); a full patch contributes a zero flag byte, its 12 control
points and its 4 corner colors. -/
def serialize_shade6_loop (shade : ShadingType6) (s : List Nat) :
    List CoonsPatchElement → COut (List Nat)
  | [] => .ok s
  | .continuation _ _ :: _ => .abort
  | .full e :: rest =>
    match serialize_shade6_points shade (s ++ [0]) e.p with
    | .ok s =>
      match serialize_shade6_colors shade.colorspace s e.c with
      | .ok s => serialize_shade6_loop shade s rest
      | r => r
    | r => r

/-- serialize_shade6 (pdfdocument.cpp:129). -/
def serialize_shade6 (shade : ShadingType6) : COut (List Nat) :=
  serialize_shade6_loop shade [] shade.elements

/-! ## Object table and document state (pdfdocument.cpp) -/

/-- Bytes of a C++ std::string buffer. -/
def strBytes (s : String) : List Nat :=
  s.toUTF8.toList.map (fun b => b.toNat)

structure IccInfo where
  stream_num : Nat
  object_num : Nat
  num_channels : Nat
  deriving DecidableEq, Repr

structure StructureUsage where
  page_num : Nat
  mcid : Nat
  deriving DecidableEq, Repr

structure PageOffsets where
  resource_num : Nat
  commands_num : Nat
  page_obj_num : Nat
  deriving DecidableEq, Repr

/-- The payload of a DelayedPage object, restricted to the fields add_page
sets (PageProperties and the Transition payload are defined outside the
sources and never inspected here; the transition survives as a flag). -/
structure DelayedPageData where
  page_num : Nat
  used_form_widgets : List Nat
  used_annots : List Nat
  has_transition : Bool
  subnav_root : Option Nat
  structparents : Option Nat
  deriving DecidableEq, Repr

/-- The object-table variant (spec section 4.1).  Binary stream payloads are
byte lists; dictionary text is a string.  The delayed constructors carry the
indices the source stores in them. -/
inductive ObjectType where
  | dummyIndexZero
  | fullPDFObject (dictionary : String) (stream : List Nat)
  | deflatePDFObject (unclosed_dictionary : String) (stream : List Nat)
  | delayedPages
  | delayedPage (p : DelayedPageData)
  | delayedAnnot (annot_id : Nat)
  | delayedCheckboxWidget (widget_id : Nat)
  | delayedStructItem (stritem_id : Nat)
  | delayedSubsetFontData (fid : Nat) (subset_id : Nat)
  | delayedSubsetFontDescriptor (fid : Nat) (subfont_data_obj : Nat) (subset_num : Nat)
  | delayedSubsetCMap (fid : Nat) (subset_num : Nat)
  | delayedSubsetFont (fid : Nat) (subfont_descriptor_obj : Nat) (subfont_cmap_obj : Nat)
  deriving DecidableEq, Repr

/-- CapyPDF_Intent_Subtype. -/
inductive IntentSubtype where
  | pdfx
  | pdfa
  | pdfe
  deriving DecidableEq, Repr

/-- intentnames (pdfdocument.cpp:25). -/
def intentnames : IntentSubtype → String
  | .pdfx => "/GTS_PDFX"
  | .pdfa => "/GTS_PDFA"
  | .pdfe => "/ISO_PDFE"

/-- PdfGenerationData (the construction options of spec section 6).  The
field creation_date models the external clock read current_date_string(). -/
structure PdfGenerationData where
  title : String
  author : String
  creator : String
  lang : String
  is_tagged : Bool
  compress_streams : Bool
  output_colorspace : Colorspace
  subtype : Option IntentSubtype
  intent_condition_identifier : String
  creation_date : String
  deriving DecidableEq, Repr

/-- The PdfDocument aggregate, restricted to the registries the embedded
operations touch.  The PdfColorConverter collaborator is represented by its
three profile byte blobs; pointer identity of the C++ object is modelled by
the numeric tag docId. -/
structure PdfDocument where
  docId : Nat
  opts : PdfGenerationData
  cm_rgb : List Nat
  cm_gray : List Nat
  cm_cmyk : List Nat
  document_objects : List ObjectType
  icc_profiles : List IccInfo
  pages : List PageOffsets
  form_use : List (Nat × Nat)
  annot_use : List (Nat × Nat)
  structure_use : List (Nat × StructureUsage)
  structure_parent_tree_items : List (List Nat)
  separation_objects : List Nat
  form_widgets : List Nat
  ocg_items : List Nat
  transparency_groups : List Nat
  output_profile : Option Int
  pages_object : Nat
  page_group_object : Nat
  output_intent_object : Option Nat
  deriving DecidableEq, Repr

/-- PdfDocument::add_object (pdfdocument.cpp:433): the object number handed
out is the table size before the append. -/
def add_object (doc : PdfDocument) (object : ObjectType) : PdfDocument × Nat :=
  let object_num := doc.document_objects.length
  ({ doc with document_objects := doc.document_objects ++ [object] }, object_num)

/-! ## ICC profile registration (pdfdocument.cpp:496-504, 806-836) -/

/-- The loop body of find_icc_profile: fetch the profile's stream object and
compare its stored stream bytes with the candidate contents.  The source
asserts the object is a DeflatePDFObject; a different variant cannot match. -/
def icc_entry_matches (doc : PdfDocument) (contents : List Nat) (info : IccInfo) : Bool :=
  match doc.document_objects.get? info.stream_num with
  | some (.deflatePDFObject _ stream) => stream == contents
  | _ => false

/-- PdfDocument::find_icc_profile (pdfdocument.cpp:806): index of the first
registered profile whose stream bytes equal the candidate contents. -/
def find_icc_profile (doc : PdfDocument) (contents : List Nat) : Option Nat :=
  doc.icc_profiles.findIdx? (icc_entry_matches doc contents)

/-- PdfDocument::store_icc_profile (pdfdocument.cpp:818).  The source opens
with assert(!find_icc_profile(contents)): callers are required to have
deduplicated already.  The assert is compiled out in a release build and the
function then appends unconditionally, which is the behavior embedded here;
the assert's condition is reasoned about separately. -/
def store_icc_profile (doc : PdfDocument) (contents : List Nat) (num_channels : Nat) :
    PdfDocument × Int :=
  if contents.isEmpty then (doc, -1)
  else
    let buf := "<<\n  /N " ++ toString num_channels ++ "\n"
    let (doc, stream_obj_id) := add_object doc (.deflatePDFObject buf contents)
    let (doc, obj_id) := add_object doc
      (.fullPDFObject ("[ /ICCBased " ++ toString stream_obj_id ++ " 0 R ]\n") [])
    let new_id : Int := Int.ofNat doc.icc_profiles.length
    ({ doc with
        icc_profiles := doc.icc_profiles ++ [⟨stream_obj_id, obj_id, num_channels⟩] },
      new_id)

/-- PdfDocument::load_icc_file (pdfdocument.cpp:496), with the loaded file
contents and the ICC module's num_channels answer passed in directly (file
reading and the color-management module are external collaborators). -/
def load_icc_from_bytes (doc : PdfDocument) (contents : List Nat) (num_channels : Nat) :
    PdfDocument × Int :=
  match find_icc_profile doc contents with
  | some iccid => (doc, Int.ofNat iccid)
  | none => store_icc_profile doc contents num_channels

/-! ## Page addition (pdfdocument.cpp:278-344, 352-431) -/

/-- ocg_object_number: the object number backing an OCG id.  The source
indexes with bounds-checked .at(); the fallback value is only ever used in
dictionary text. -/
def ocg_object_number (doc : PdfDocument) (ocgid : Nat) : Nat :=
  (doc.ocg_items.get? ocgid).getD 0

def subnav_root_dict (doc : PdfDocument) (subnav : List Nat) (root_obj : Nat) : String :=
  "<<\n  /Type /NavNode\n  /NA <<\n    /S /SetOCGState\n    /State [ /OFF\n"
    ++ String.join (subnav.map
        (fun i => "      " ++ toString (ocg_object_number doc i) ++ " 0 R\n"))
    ++ "    ]\n  >>\n"
    ++ "  /Next " ++ toString (root_obj + 1) ++ " 0 R\n"
    ++ "  /PA <<\n    /S /SetOCGState\n    /State [ /ON\n"
    ++ String.join (subnav.map
        (fun i => "      " ++ toString (ocg_object_number doc i) ++ " 0 R\n"))
    ++ "    ]\n  >>\n"
    ++ "  /Prev " ++ toString (root_obj + 1 + subnav.length) ++ " 0 R\n>>\n"

def subnav_node_dict (doc : PdfDocument) (first_obj i : Nat) (prev : Option Nat)
    (sid : Nat) : String :=
  "<<\n  /Type /NavNode\n  /NA  <<\n    /S /SetOCGState\n    /State [ /ON "
    ++ toString (ocg_object_number doc sid) ++ " 0 R ]\n  >>\n"
    ++ "  /Next " ++ toString (first_obj + i + 1) ++ " 0 R\n"
    ++ (match prev with
        | some prevsid =>
          "  /PA <<\n    /S /SetOCGState\n    /State [ /OFF "
            ++ toString (ocg_object_number doc prevsid) ++ " 0 R ]\n  >>\n"
            ++ "  /Prev " ++ toString (first_obj + i - 1) ++ " 0 R\n"
        | none => "")
    ++ ">>\n"

def subnav_last_dict (doc : PdfDocument) (subnav : List Nat) (first_obj : Nat) : String :=
  "<<\n  /Type /NavNode\n  /PA <<\n    /S /SetOCGState\n    /State [ /OFF "
    ++ toString (ocg_object_number doc (subnav.getLast?.getD 0)) ++ " 0 R ]\n  >>\n"
    ++ "  /Prev " ++ toString (first_obj + subnav.length - 1) ++ " 0 R\n>>\n"

/-- The per-entry loop of create_subnavigation (pdfdocument.cpp:383): one
NavNode object per sub-navigation entry. -/
def add_subnav_nodes (first_obj : Nat) : Nat → Option Nat → PdfDocument → List Nat →
    PdfDocument
  | _, _, doc, [] => doc
  | i, prev, doc, sid :: rest =>
    add_subnav_nodes first_obj (i + 1) (some sid)
      (add_object doc (.fullPDFObject (subnav_node_dict doc first_obj i prev sid) [])).1
      rest

/-- PdfDocument::create_subnavigation (pdfdocument.cpp:352): a root NavNode,
one node per entry, and a final NavNode; returns the root's object number
(the table size on entry). -/
def create_subnavigation (doc : PdfDocument) (subnav : List Nat) : PdfDocument × Nat :=
  let root_obj := doc.document_objects.length
  let doc := (add_object doc (.fullPDFObject (subnav_root_dict doc subnav root_obj) [])).1
  let first_obj := doc.document_objects.length
  let doc := add_subnav_nodes first_obj 0 none doc subnav
  let doc := (add_object doc (.fullPDFObject (subnav_last_dict doc subnav first_obj) [])).1
  (doc, root_obj)

/-- The mutation phase of PdfDocument::add_page (pdfdocument.cpp:302-343),
entered only after every reuse check has passed: the resource object, the
command-stream object (deflated or with an explicit /Length), optionally the
sub-navigation objects and the structure-parent-tree entry, the DelayedPage
object, the usage-map insertions, and the pages entry. -/
def add_page_body (doc : PdfDocument)
    (resource_dict unclosed_object_dict command_stream : String)
    (fws annots structs : List Nat) (has_transition : Bool) (subnav : List Nat) :
    PdfDocument :=
  let (doc, resource_num) := add_object doc (.fullPDFObject resource_dict [])
  let (doc, commands_num) :=
    if doc.opts.compress_streams then
      add_object doc (.deflatePDFObject unclosed_object_dict (strBytes command_stream))
    else
      add_object doc (.fullPDFObject
        (unclosed_object_dict ++ "  /Length "
          ++ toString (strBytes command_stream).length ++ "\n>>\n")
        (strBytes command_stream))
  let page_num := doc.pages.length
  let (doc, subnav_root) :=
    if subnav.isEmpty then (doc, none)
    else
      let (d, r) := create_subnavigation doc subnav
      (d, some r)
  let (doc, structparents) :=
    if structs.isEmpty then (doc, none)
    else
      ({ doc with
          structure_parent_tree_items := doc.structure_parent_tree_items ++ [structs] },
        some doc.structure_parent_tree_items.length)
  let p : DelayedPageData :=
    { page_num := page_num
      used_form_widgets := fws
      used_annots := annots
      has_transition := has_transition
      subnav_root := subnav_root
      structparents := structparents }
  let (doc, page_object_num) := add_object doc (.delayedPage p)
  let doc := { doc with
    form_use := doc.form_use ++ fws.map (fun a => (a, page_object_num)) }
  let doc := { doc with
    annot_use := doc.annot_use ++ annots.map (fun a => (a, page_object_num)) }
  let doc := { doc with
    structure_use := doc.structure_use
      ++ structs.enum.map (fun (q : Nat × Nat) => (q.2, StructureUsage.mk page_num q.1)) }
  { doc with pages := doc.pages
      ++ [PageOffsets.mk resource_num commands_num page_object_num] }

/-- The membership test of the reuse scans: whether an id already has an
entry in one of the document's usage maps (std::unordered_map::find). -/
def key_used (m : List (Nat × α)) (k : Nat) : Bool :=
  (m.find? (fun q => q.1 == k)).isSome

/-- PdfDocument::add_page (pdfdocument.cpp:278): the three reuse scans run
before any mutation; the C++ sets of widget and annotation ids are modelled
as lists.  Failing a scan returns the untouched document with the error. -/
def add_page (doc : PdfDocument)
    (resource_dict unclosed_object_dict command_stream : String)
    (fws annots structs : List Nat) (has_transition : Bool) (subnav : List Nat) :
    PdfDocument × Option PdfErr :=
  if fws.any (key_used doc.form_use) then
    (doc, some .AnnotationReuse)
  else if annots.any (key_used doc.annot_use) then
    (doc, some .AnnotationReuse)
  else if structs.any (key_used doc.structure_use) then
    (doc, some .StructureReuse)
  else
    (add_page_body doc resource_dict unclosed_object_dict command_stream
      fws annots structs has_transition subnav, none)

/-! ## Document construction (pdfdocument.cpp:217-276, 653-668, 838-873) -/

/-- Modelled from the spec: utf8_to_pdfmetastr lives in the utils module,
which is not among the sources; only dictionary text depends on it. -/
def utf8_to_pdfmetastr (s : String) : String := "(" ++ s ++ ")"

/-- Modelled from the spec: pdfstring_quote lives in the utils module, which
is not among the sources; only dictionary text depends on it. -/
def pdfstring_quote (s : String) : String := "(" ++ s ++ ")"

/-- PdfDocument::generate_info_object (pdfdocument.cpp:838). -/
def generate_info_object (doc : PdfDocument) : PdfDocument :=
  let dict := "<<\n"
    ++ (if doc.opts.title.isEmpty then ""
        else "  /Title " ++ utf8_to_pdfmetastr doc.opts.title ++ "\n")
    ++ (if doc.opts.author.isEmpty then ""
        else "  /Author " ++ utf8_to_pdfmetastr doc.opts.author ++ "\n")
    ++ (if doc.opts.creator.isEmpty then ""
        else "  /Creator " ++ utf8_to_pdfmetastr doc.opts.creator ++ "\n")
    ++ "  /Producer (CapyPDF)\n"
    ++ "  /CreationDate " ++ doc.opts.creation_date ++ "\n"
    ++ "  /ModDate " ++ doc.opts.creation_date ++ "\n"
    ++ "  /Trapped /False\n"
    ++ (if doc.opts.subtype.getD .pdfa = .pdfx then "  /GTS_PDFXVersion (PDF/X-3:2003)\n"
        else "")
    ++ ">>\n"
  (add_object doc (.fullPDFObject dict [])).1

/-- PdfDocument::create_separation (pdfdocument.cpp:439): a type 4 function
object and the separation array object. -/
def create_separation (doc : PdfDocument) (name : String) (fallback : DeviceCMYKColor) :
    PdfDocument × Nat :=
  let stream := "\x7b dup " ++ toString fallback.c ++ " mul\nexch " ++ toString fallback.m
    ++ " exch dup " ++ toString fallback.y ++ " mul\nexch " ++ toString fallback.k
    ++ " mul\n\x7d\n"
  let buf := "<<\n  /FunctionType 4\n  /Domain [ 0.0 1.0 ]\n"
    ++ "  /Range [ 0.0 1.0 0.0 1.0 0.0 1.0 0.0 1.0 ]\n  /Length "
    ++ toString (strBytes stream).length ++ "\n>>\n"
  let (doc, fn_num) := add_object doc (.fullPDFObject buf (strBytes stream))
  let buf2 := "[\n  /Separation\n    /" ++ name ++ "\n    /DeviceCMYK\n    "
    ++ toString fn_num ++ " 0 R\n]\n"
  let (doc, sep_obj) := add_object doc (.fullPDFObject buf2 [])
  ({ doc with separation_objects := doc.separation_objects ++ [sep_obj] },
    doc.separation_objects.length)

/-- PdfDocument::create_page_group (pdfdocument.cpp:268). -/
def create_page_group (doc : PdfDocument) : PdfDocument × Nat :=
  add_object doc (.fullPDFObject
    ("<<\n  /S /Transparency\n  /CS "
      ++ colorspace_names doc.opts.output_colorspace ++ "\n>>\n") [])

/-- PdfDocument::create_output_intent (pdfdocument.cpp:653). -/
def create_output_intent (doc : PdfDocument) : PdfDocument :=
  let stream_num :=
    match doc.output_profile with
    | some p => ((doc.icc_profiles.get? p.toNat).map (fun (i : IccInfo) => i.stream_num)).getD 0
    | none => 0
  let buf := "<<\n  /Type /OutputIntent\n  /S " ++ intentnames (doc.opts.subtype.getD .pdfa)
    ++ "\n  /OutputConditionIdentifier "
    ++ pdfstring_quote doc.opts.intent_condition_identifier
    ++ "\n  /DestOutputProfile " ++ toString stream_num ++ " 0 R\n>>\n"
  let (d, id) := add_object doc (.fullPDFObject buf [])
  { d with output_intent_object := some id }

/-- The output-profile switch of PdfDocument::init (pdfdocument.cpp:235):
for the chosen output colorspace, store the matching ICC profile if one was
supplied; a CMYK document without a CMYK profile is an error. -/
def init_profile_step (doc : PdfDocument) : PdfDocument × Option PdfErr :=
  match doc.opts.output_colorspace with
  | .deviceRGB =>
    if doc.cm_rgb.isEmpty then (doc, none)
    else
      let (d, p) := store_icc_profile doc doc.cm_rgb 3
      ({ d with output_profile := some p }, none)
  | .deviceGray =>
    if doc.cm_gray.isEmpty then (doc, none)
    else
      let (d, p) := store_icc_profile doc doc.cm_gray 1
      ({ d with output_profile := some p }, none)
  | .deviceCMYK =>
    if doc.cm_cmyk.isEmpty then (doc, some .OutputProfileMissing)
    else
      let (d, p) := store_icc_profile doc doc.cm_cmyk 4
      ({ d with output_profile := some p }, none)

/-- The tail of PdfDocument::init after the profile switch
(pdfdocument.cpp:253): the page group, the DelayedPages placeholder whose
slot number becomes pages_object, and — when an intent subtype was
requested — its validity checks and the output-intent object. -/
def init_tail (doc : PdfDocument) : PdfDocument × Option PdfErr :=
  let (doc, pgobj) := create_page_group doc
  let doc := { doc with page_group_object := pgobj }
  let doc := { doc with document_objects := doc.document_objects ++ [ObjectType.delayedPages] }
  let doc := { doc with pages_object := doc.document_objects.length - 1 }
  match doc.opts.subtype with
  | none => (doc, none)
  | some _ =>
    if doc.output_profile.isNone then (doc, some .OutputProfileMissing)
    else if doc.opts.intent_condition_identifier.isEmpty then
      (doc, some .MissingIntentIdentifier)
    else (create_output_intent doc, none)

/-- PdfDocument::init (pdfdocument.cpp:226): the dummy sentinel at index 0,
the info object, for CMYK output the All separation, then the output
profile and the tail.  Error returns leave the document in the state
reached so far, exactly as the C++ early returns leave *this. -/
def PdfDocument.init (doc : PdfDocument) : PdfDocument × Option PdfErr :=
  let doc := { doc with document_objects := doc.document_objects ++ [.dummyIndexZero] }
  let doc := generate_info_object doc
  let doc :=
    if doc.opts.output_colorspace = .deviceCMYK then
      (create_separation doc "All" (DeviceCMYKColor.mk 1 1 1 1)).1
    else doc
  match init_profile_step doc with
  | (doc, some e) => (doc, some e)
  | (doc, none) => init_tail doc

/-- PdfDocument::construct (pdfdocument.cpp:217): a fresh document with
empty registries, then init. -/
def PdfDocument.construct (docId : Nat) (opts : PdfGenerationData)
    (cm_rgb cm_gray cm_cmyk : List Nat) : PdfDocument × Option PdfErr :=
  PdfDocument.init
    { docId := docId
      opts := opts
      cm_rgb := cm_rgb
      cm_gray := cm_gray
      cm_cmyk := cm_cmyk
      document_objects := []
      icc_profiles := []
      pages := []
      form_use := []
      annot_use := []
      structure_use := []
      structure_parent_tree_items := []
      separation_objects := []
      form_widgets := []
      ocg_items := []
      transparency_groups := []
      output_profile := none
      pages_object := 0
      page_group_object := 0
      output_intent_object := none }

/-! ## Patterns and transparency groups (pdfdocument.cpp:1328-1362, 1456-1469) -/

/-- Modelled from the spec: PdfDrawContext::build_resource_dict lives in
pdfdrawcontext.cpp, which is not among the sources; it emits the /Resources
dictionary of the referenced resource classes.  The resource sets are not
part of this embedding, so the dictionary is represented by its frame. -/
def build_resource_dict (_ctx : PdfDrawContext) : String := "<<\n>>\n"

/-- PdfDocument::add_pattern (pdfdocument.cpp:1328): rejects a draw context
belonging to another document, a context of the wrong kind, and an unclosed
marked-content block, in that order, before installing the tiling-pattern
object. -/
def add_pattern (doc : PdfDocument) (ctx : PdfDrawContext) :
    PdfDocument × Except PdfErr Nat :=
  if ctx.docId ≠ doc.docId then (doc, .error .IncorrectDocumentForObject)
  else if ctx.context_type ≠ .colorTiling then (doc, .error .InvalidDrawContextType)
  else if ctx.marked_depth ≠ 0 then (doc, .error .UnclosedMarkedContent)
  else
    let resources := build_resource_dict ctx
    let commands := ctx.commands
    let pattern_dict := "<<\n  /Type /Pattern\n  /PatternType 1\n  /PaintType 1\n"
      ++ "  /TilingType 1\n  /BBox [ 0 0 " ++ toString ctx.bbox_w ++ " "
      ++ toString ctx.bbox_h ++ " ]\n  /XStep " ++ toString ctx.bbox_w
      ++ "\n  /YStep " ++ toString ctx.bbox_h ++ "\n  /Resources " ++ resources
      ++ "  /Length " ++ toString (strBytes commands).length ++ "\n>>\n"
    let (doc, id) := add_object doc (.fullPDFObject pattern_dict (strBytes commands))
    (doc, .ok id)

structure SerializedXObject where
  dict : String
  command_stream : List Nat
  deriving DecidableEq, Repr

/-- Modelled from the spec: PdfDrawContext::serialize for XObject-type
contexts lives in pdfdrawcontext.cpp, which is not among the sources; per
spec section 4.2 it produces the XObject dictionary and the accumulated
command stream. -/
def PdfDrawContext.serializeXObject (ctx : PdfDrawContext) : SerializedXObject :=
  { dict := "<<\n  /Type /XObject\n  /Subtype /Form\n  /BBox [ 0 0 "
      ++ toString ctx.bbox_w ++ " " ++ toString ctx.bbox_h ++ " ]\n  /Resources "
      ++ build_resource_dict ctx ++ ">>\n"
    command_stream := strBytes ctx.commands }

/-- PdfDocument::add_transparency_group (pdfdocument.cpp:1456): checks the
context kind and the marked-content depth — and nothing else — before
serializing the context and installing the group object. -/
def add_transparency_group (doc : PdfDocument) (ctx : PdfDrawContext) :
    PdfDocument × Except PdfErr Nat :=
  if ctx.context_type ≠ .transparencyGroup then (doc, .error .InvalidDrawContextType)
  else if ctx.marked_depth ≠ 0 then (doc, .error .UnclosedMarkedContent)
  else
    let d := ctx.serializeXObject
    let (doc, objid) := add_object doc (.fullPDFObject d.dict d.command_stream)
    ({ doc with transparency_groups := doc.transparency_groups ++ [objid] }, .ok objid)

/-! ## Shading installation (pdfdocument.cpp:1241-1326) -/

/-- The per-channel /Decode rows emitted for a mesh shading dictionary. -/
def shade_decode_rows : Colorspace → String
  | .deviceRGB => "    0 1\n    0 1\n    0 1\n"
  | .deviceGray => "  0 1\n"
  | .deviceCMYK => "    0 1\n    0 1\n    0 1\n    0 1\n"

/-- PdfDocument::add_shading for ShadingType4 (pdfdocument.cpp:1241): the
vertex data is serialized first; an error or abort there propagates before
any object is added. -/
def add_shading4 (doc : PdfDocument) (shade : ShadingType4) : PdfDocument × COut Nat :=
  match serialize_shade4 shade with
  | .err e => (doc, .err e)
  | .abort => (doc, .abort)
  | .ok serialized =>
    let buf := "<<\n  /ShadingType 4\n  /ColorSpace " ++ colorspace_names shade.colorspace
      ++ "\n  /BitsPerCoordinate 32\n  /BitsPerComponent 16\n  /BitsPerFlag 8\n  /Length "
      ++ toString serialized.length ++ "\n  /Decode [\n    " ++ toString shade.minx
      ++ " " ++ toString shade.maxx ++ "\n    " ++ toString shade.miny ++ " "
      ++ toString shade.maxy ++ "\n" ++ shade_decode_rows shade.colorspace ++ "  ]\n>>\n"
    let (doc, id) := add_object doc (.fullPDFObject buf serialized)
    (doc, .ok id)

/-- PdfDocument::add_shading for ShadingType6 (pdfdocument.cpp:1284): the
patch data is serialized first; an error or abort there propagates before
any object is added. -/
def add_shading6 (doc : PdfDocument) (shade : ShadingType6) : PdfDocument × COut Nat :=
  match serialize_shade6 shade with
  | .err e => (doc, .err e)
  | .abort => (doc, .abort)
  | .ok serialized =>
    let buf := "<<\n  /ShadingType 6\n  /ColorSpace " ++ colorspace_names shade.colorspace
      ++ "\n  /BitsPerCoordinate 32\n  /BitsPerComponent 16\n  /BitsPerFlag 8\n  /Length "
      ++ toString serialized.length ++ "\n  /Decode [\n    " ++ toString shade.minx
      ++ " " ++ toString shade.maxx ++ "\n    " ++ toString shade.miny ++ " "
      ++ toString shade.maxy ++ "\n" ++ shade_decode_rows shade.colorspace ++ "  ]\n>>\n"
    let (doc, id) := add_object doc (.fullPDFObject buf serialized)
    (doc, .ok id)

/-! ## Font subsetting and space padding (pdfdocument.cpp:506-534) -/

/-- Modelled from the spec: the FontSubsetter class lives in
fontsubsetter.cpp, which is not among the sources.  Per spec section 4.4 a
font's subsets form an ordered list; each subset is a vector of glyph
records, modelled here as the list of its codepoints.  This helper locates
a codepoint's (subset index, local glyph id) slot if it already has one. -/
def find_in_subsets : List (List Nat) → Nat → Option (Nat × Nat)
  | [], _ => none
  | s :: rest, cp =>
    match List.indexOf? cp s with
    | some j => some (0, j)
    | none => (find_in_subsets rest cp).map (fun q => (q.1 + 1, q.2))

/-- Modelled from the spec: FontSubsetter::get_glyph_subset (spec section
4.4) — return the existing slot if the codepoint has one; otherwise append
to the last subset if it has a free slot (fewer than 256 entries);
otherwise open a new subset. -/
def get_glyph_subset (ss : List (List Nat)) (cp : Nat) :
    List (List Nat) × (Nat × Nat) :=
  match find_in_subsets ss cp with
  | some loc => (ss, loc)
  | none =>
    match ss.getLast? with
    | none => ([[cp]], (0, 0))
    | some last =>
      if last.length < 256 then
        (ss.dropLast ++ [last ++ [cp]], (ss.length - 1, last.length))
      else
        (ss ++ [[cp]], (ss.length, 0))

/-- Modelled from the spec: FontSubsetter::unchecked_insert_glyph_to_last_subset
(spec section 4.4) — append to the last subset, bypassing deduplication. -/
def unchecked_insert_glyph_to_last_subset (ss : List (List Nat)) (cp : Nat) :
    List (List Nat) :=
  ss.dropLast ++ [(ss.getLast?.getD []) ++ [cp]]

/-- Modelled from the spec: FontSubsetter::get_subset — the glyph list of
one subset (bounds-checked access in the source). -/
def get_subset (ss : List (List Nat)) (i : Nat) : List Nat :=
  (ss.get? i).getD []

/-- The padding loop of PdfDocument::pad_subset_fonts (pdfdocument.cpp:519):
up to max_count = 100 candidate codepoints, starting at 0x21, are offered to
get_glyph_subset; success is flagged only when the loop observes the last
subset holding exactly SPACE = 32 elements at the top of an iteration.  The
fuel argument counts the remaining iterations, i the candidate offset. -/
def pad_loop (subset_id : Nat) : Nat → Nat → List (List Nat) →
    List (List Nat) × Bool
  | _, 0, ss => (ss, false)
  | i, fuel + 1, ss =>
    if (get_subset ss subset_id).length = 32 then (ss, true)
    else pad_loop subset_id (i + 1) fuel (get_glyph_subset ss (33 + i)).1

/-- The per-font body of PdfDocument::pad_subset_fonts (pdfdocument.cpp:506):
a font whose last subset holds more than 32 elements is skipped; otherwise
the padding loop runs and, on success, the space codepoint (32) is appended
without deduplication; a failed padding loop aborts the process, as does the
asserted-impossible case of a font with no subsets. -/
def pad_subset_font (ss : List (List Nat)) : COut (List (List Nat)) :=
  if ss.isEmpty then .abort
  else if 32 < (get_subset ss (ss.length - 1)).length then .ok ss
  else
    match pad_loop (ss.length - 1) 0 100 ss with
    | (_, false) => .abort
    | (ss2, true) => .ok (unchecked_insert_glyph_to_last_subset ss2 32)

/-- PdfDocument::pad_subset_fonts (pdfdocument.cpp:506): every font of the
document is padded in turn; an abort terminates the whole run. -/
def pad_subset_fonts : List (List (List Nat)) → COut (List (List (List Nat)))
  | [] => .ok []
  | f :: fs =>
    match pad_subset_font f with
    | .ok f2 =>
      match pad_subset_fonts fs with
      | .ok fs2 => .ok (f2 :: fs2)
      | .err e => .err e
      | .abort => .abort
    | .err e => .err e
    | .abort => .abort

/-! ## Derived notions used by the claim statements -/

/-- The arguments of one add_page call, bundled so that call sequences can
be folded over a document. -/
structure PageReq where
  resource_dict : String
  unclosed_object_dict : String
  command_stream : String
  fws : List Nat
  annots : List Nat
  structs : List Nat
  has_transition : Bool
  subnav : List Nat
  deriving DecidableEq, Repr

def add_page_req (doc : PdfDocument) (r : PageReq) : PdfDocument × Option PdfErr :=
  add_page doc r.resource_dict r.unclosed_object_dict r.command_stream
    r.fws r.annots r.structs r.has_transition r.subnav

/-- A sequence of add_page calls; a failing call leaves the document as the
failing call left it (unchanged) and the sequence continues, matching a
caller that ignores the error. -/
def add_pages : PdfDocument → List PageReq → PdfDocument
  | doc, [] => doc
  | doc, r :: rest => add_pages (add_page_req doc r).1 rest

/-- Every form widget, annotation and structure item is attached to at most
one page: each usage map mentions each id at most once. -/
def attached_once (doc : PdfDocument) : Prop :=
  (doc.form_use.map Prod.fst).Nodup
  ∧ (doc.annot_use.map Prod.fst).Nodup
  ∧ (doc.structure_use.map Prod.fst).Nodup

/-- The object table of the second document extends the first: existing
entries keep both their content and their position. -/
def objects_extend (d d2 : PdfDocument) : Prop :=
  ∃ t, d2.document_objects = d.document_objects ++ t

/-- One document-mutating operation of the embedded interface. -/
inductive DocStep : PdfDocument → PdfDocument → Prop where
  | ofAddObject (doc : PdfDocument) (o : ObjectType) : DocStep doc (add_object doc o).1
  | ofAddPage (doc : PdfDocument) (r : PageReq) : DocStep doc (add_page_req doc r).1
  | ofStoreIcc (doc : PdfDocument) (contents : List Nat) (nch : Nat) :
      DocStep doc (store_icc_profile doc contents nch).1
  | ofLoadIcc (doc : PdfDocument) (contents : List Nat) (nch : Nat) :
      DocStep doc (load_icc_from_bytes doc contents nch).1
  | ofAddPattern (doc : PdfDocument) (ctx : PdfDrawContext) :
      DocStep doc (add_pattern doc ctx).1
  | ofAddTransparencyGroup (doc : PdfDocument) (ctx : PdfDrawContext) :
      DocStep doc (add_transparency_group doc ctx).1
  | ofAddShading4 (doc : PdfDocument) (shade : ShadingType4) :
      DocStep doc (add_shading4 doc shade).1
  | ofAddShading6 (doc : PdfDocument) (shade : ShadingType6) :
      DocStep doc (add_shading6 doc shade).1
  | ofCreateSeparation (doc : PdfDocument) (name : String) (fallback : DeviceCMYKColor) :
      DocStep doc (create_separation doc name fallback).1
  | ofCreateSubnav (doc : PdfDocument) (subnav : List Nat) :
      DocStep doc (create_subnavigation doc subnav).1

/-- Whether a type 6 shading holds a continuation patch among its
elements. -/
def has_continuation_patch (shade : ShadingType6) : Bool :=
  shade.elements.any (fun e =>
    match e with
    | .continuation _ _ => true
    | .full _ => false)

/-- Whether a color is one of the three device-color variants (the only
ones serialize_shade4 supports; anything else aborts there). -/
def is_device_color : Color → Prop
  | .rgb _ => True
  | .gray _ => True
  | .cmyk _ => True
  | _ => False

/-- Whether a color's variant agrees with a declared device colorspace. -/
def color_matches (cs : Colorspace) : Color → Prop
  | .rgb _ => cs = .deviceRGB
  | .gray _ => cs = .deviceGray
  | .cmyk _ => cs = .deviceCMYK
  | _ => False

/-- All channel values of a color lie in the closed unit interval, so that
append_floatvalue accepts them. -/
def color_in_range : Color → Prop
  | .rgb c => 0 ≤ c.r ∧ c.r ≤ 1 ∧ 0 ≤ c.g ∧ c.g ≤ 1 ∧ 0 ≤ c.b ∧ c.b ≤ 1
  | .gray c => 0 ≤ c.v ∧ c.v ≤ 1
  | .cmyk c => 0 ≤ c.c ∧ c.c ≤ 1 ∧ 0 ≤ c.m ∧ c.m ≤ 1 ∧ 0 ≤ c.y ∧ c.y ≤ 1
      ∧ 0 ≤ c.k ∧ c.k ≤ 1
  | _ => False

/-- Both bounding-box fractions of a point — exactly the ratios the shade
serializers compute — lie in the closed unit interval, so that
append_floatvalue accepts them. -/
def point_in_box (minx miny maxx maxy : ℚ) (p : PdfPoint) : Prop :=
  0 ≤ (p.x - minx) / (maxx - minx) ∧ (p.x - minx) / (maxx - minx) ≤ 1
    ∧ 0 ≤ (p.y - miny) / (maxy - miny) ∧ (p.y - miny) / (maxy - miny) ≤ 1

/-! ## Concrete inputs used by counterexamples and witnesses -/

/-- A featureless option block for concrete documents. -/
def opts0 : PdfGenerationData :=
  { title := ""
    author := ""
    creator := ""
    lang := ""
    is_tagged := false
    compress_streams := false
    output_colorspace := .deviceRGB
    subtype := none
    intent_condition_identifier := ""
    creation_date := "(D:20240101000000+00'00')" }

/-- A freshly constructed RGB document with no profiles. -/
def doc0 : PdfDocument := (PdfDocument.construct 0 opts0 [] [] []).1

/-- A font state reachable through get_glyph_subset alone: the first subset
was filled with the 256 codepoints 33..288 (which include every padding
candidate 0x21..0x21+99), then codepoint 289 opened a second subset.  Its
last subset holds a single element. -/
def c1_bad_font : List (List Nat) :=
  [(List.range 256).map (fun n => n + 33), [300]]

/-- The padded form of the one-glyph font [[65]]: 31 candidates 0x21..0x3f
fill the subset to 32 entries, then space is appended at local id 32. -/
def c1_padded : List Nat := 65 :: (List.range' 33 31 ++ [32])

/-- A single-subset font holding one glyph. -/
def c1_font : List (List Nat) := [[65]]

/-- A transparency-group draw context carrying a document tag different
from doc0's. -/
def c2_ctx : PdfDrawContext :=
  { docId := 1
    context_type := .transparencyGroup
    commands := ""
    dstate_stack := []
    ind := ""
    marked_depth := 0
    bbox_w := 10
    bbox_h := 10 }

/-- doc0 after registering the ICC profile bytes [1, 2, 3] once. -/
def c3_doc1 : PdfDocument := (store_icc_profile doc0 [1, 2, 3] 3).1

/-- A page-kind draw context sitting inside an open marked-content block. -/
def c4_ctx : PdfDrawContext :=
  { docId := 0
    context_type := .page
    commands := ""
    dstate_stack := [.markedContent]
    ind := "  "
    marked_depth := 1
    bbox_w := 200
    bbox_h := 100 }

/-- doc0 after a page attached form widget 7. -/
def c10_doc : PdfDocument :=
  (add_page doc0 "<< >>" "<<\n" "" [7] [] [] false []).1

/-- c10_doc after a further page attached structure item 5, so that both a
form-widget reuse and a structure reuse can be exhibited. -/
def c5_doc : PdfDocument :=
  (add_page c10_doc "<< >>" "<<\n" "" [] [] [5] false []).1

/-- A DeviceRGB type 4 shading whose single vertex carries a gray color. -/
def c6_shade4 : ShadingType4 :=
  { minx := 0
    miny := 0
    maxx := 1
    maxy := 1
    colorspace := .deviceRGB
    elements := [{ flag := 0, sp := { p := { x := 0, y := 0 }, c := .gray { v := 1/2 } } }] }

/-- A full Coons patch whose four corners carry gray colors. -/
def c6_patch : FullCoonsPatch :=
  { p := List.replicate 12 { x := 0, y := 0 }
    c := List.replicate 4 (.gray { v := 1/2 }) }

/-- A DeviceRGB type 6 shading holding one full patch with gray corners. -/
def c6_shade6 : ShadingType6 :=
  { minx := 0
    miny := 0
    maxx := 1
    maxy := 1
    colorspace := .deviceRGB
    elements := [c6_patch].map CoonsPatchElement.full }

/-- A type 6 shading whose only element is a continuation patch. -/
def c7_shade : ShadingType6 :=
  { minx := 0
    miny := 0
    maxx := 1
    maxy := 1
    colorspace := .deviceRGB
    elements := [.continuation [] []] }

/-! ## Theorems -/

theorem indent_nested (ctx : PdfDrawContext)
    (h : ctx.dstate_stack.contains DrawStateType.markedContent = true) :
    ctx.indent .markedContent = (ctx, .err .NestedBMC) := by
  unfold PdfDrawContext.indent
  rw [if_pos ⟨rfl, h⟩]

theorem dedent_mismatch (ctx : PdfDrawContext) (dtype : DrawStateType)
    (h : ctx.dstate_stack.head? ≠ some dtype) :
    ctx.dedent dtype = (ctx, .err .DrawStateEndMismatch) := by
  unfold PdfDrawContext.dedent
  split
  · rfl
  next top rest heq =>
    have htop : top ≠ dtype := by
      intro hh
      exact h (by rw [heq, hh]; rfl)
    rw [if_pos htop]

/-- C4: opening a marked-content block (cmd_BMC or cmd_BDC) while any entry
of the draw-state stack is already a MarkedContent entry fails with
NestedBMC, and the stack and command buffer are left unchanged by the
failed call (the whole context is returned untouched). -/
theorem C4_nested_marked_content_rejected (ctx : PdfDrawContext) (tag props : String)
    (h : ctx.dstate_stack.contains DrawStateType.markedContent = true) :
    ctx.cmd_BMC tag = (ctx, .err .NestedBMC)
    ∧ ctx.cmd_BDC tag props = (ctx, .err .NestedBMC)
    ∧ ctx.indent .markedContent = (ctx, .err .NestedBMC) := by
  refine ⟨?_, ?_, indent_nested ctx h⟩
  · unfold PdfDrawContext.cmd_BMC
    rw [indent_nested ctx h]
  · unfold PdfDrawContext.cmd_BDC
    rw [indent_nested ctx h]

theorem C4_witness :
    c4_ctx.dstate_stack.contains DrawStateType.markedContent = true
    ∧ (c4_ctx.cmd_BMC "Artifact" = (c4_ctx, .err .NestedBMC)
        ∧ c4_ctx.cmd_BDC "Artifact" "<< >>" = (c4_ctx, .err .NestedBMC)
        ∧ c4_ctx.indent .markedContent = (c4_ctx, .err .NestedBMC)) :=
  ⟨by decide, C4_nested_marked_content_rejected c4_ctx "Artifact" "<< >>" (by decide)⟩

/-- C8: a closing operation (cmd_Q, cmd_ET, cmd_EMC) fails with
DrawStateEndMismatch when the draw-state stack is empty or its top entry is
not of the matching kind (head? covers both cases at once), and on such a
failure the whole context — in particular the stack — is left unchanged. -/
theorem C8_close_mismatch_rejected (ctx : PdfDrawContext) (dtype : DrawStateType)
    (h : ctx.dstate_stack.head? ≠ some dtype) :
    ctx.dedent dtype = (ctx, .err .DrawStateEndMismatch)
    ∧ (ctx.dstate_stack.head? ≠ some .saveState →
        ctx.cmd_Q = (ctx, .err .DrawStateEndMismatch))
    ∧ (ctx.dstate_stack.head? ≠ some .text →
        ctx.cmd_ET = (ctx, .err .DrawStateEndMismatch))
    ∧ (ctx.dstate_stack.head? ≠ some .markedContent →
        ctx.cmd_EMC = (ctx, .err .DrawStateEndMismatch)) := by
  refine ⟨dedent_mismatch ctx dtype h, ?_, ?_, ?_⟩
  · intro hq
    unfold PdfDrawContext.cmd_Q
    rw [dedent_mismatch ctx .saveState hq]
  · intro het
    unfold PdfDrawContext.cmd_ET
    rw [dedent_mismatch ctx .text het]
  · intro hemc
    unfold PdfDrawContext.cmd_EMC
    rw [dedent_mismatch ctx .markedContent hemc]

theorem C8_witness :
    c2_ctx.dstate_stack.head? ≠ some DrawStateType.saveState
    ∧ (c2_ctx.dedent .saveState = (c2_ctx, .err .DrawStateEndMismatch)
        ∧ (c2_ctx.dstate_stack.head? ≠ some .saveState →
            c2_ctx.cmd_Q = (c2_ctx, .err .DrawStateEndMismatch))
        ∧ (c2_ctx.dstate_stack.head? ≠ some .text →
            c2_ctx.cmd_ET = (c2_ctx, .err .DrawStateEndMismatch))
        ∧ (c2_ctx.dstate_stack.head? ≠ some .markedContent →
            c2_ctx.cmd_EMC = (c2_ctx, .err .DrawStateEndMismatch))) :=
  ⟨by decide, C8_close_mismatch_rejected c2_ctx .saveState (by decide)⟩

/-- C2 (amended): add_pattern rejects a draw context belonging to another
document with IncorrectDocumentForObject and leaves the document unchanged;
add_transparency_group performs no document-identity check (see the
counterexample). -/
theorem C2_add_pattern_rejects_foreign_context (doc : PdfDocument)
    (ctx : PdfDrawContext) (h : ctx.docId ≠ doc.docId) :
    add_pattern doc ctx = (doc, .error .IncorrectDocumentForObject) := by
  unfold add_pattern
  rw [if_pos h]

theorem C2_witness :
    c2_ctx.docId ≠ doc0.docId
    ∧ add_pattern doc0 c2_ctx = (doc0, .error .IncorrectDocumentForObject) :=
  ⟨by decide, C2_add_pattern_rejects_foreign_context doc0 c2_ctx (by decide)⟩

/-- C2 counterexample: a transparency-group context carrying a different
document tag is accepted by add_transparency_group — the call succeeds and
an object is appended, contradicting the claim that it fails with
IncorrectDocumentForObject with no object added. -/
theorem C2_counterexample :
    c2_ctx.docId ≠ doc0.docId
    ∧ (add_transparency_group doc0 c2_ctx).2 = .ok 4
    ∧ (add_transparency_group doc0 c2_ctx).1.document_objects.length
        = doc0.document_objects.length + 1 := by
  refine ⟨by decide, ?_, ?_⟩ <;> rfl

/-- C3: evaluation at the failing input.  After the profile bytes [1,2,3]
are stored once, find_icc_profile already reports profile 0 — so a second
direct store_icc_profile call (which is exactly what add_image does for an
embedded profile, pdfdocument.cpp:950) runs with its assert(!existing)
precondition violated and hands out the fresh id 1 plus two new objects,
while the deduplicating load path returns the original id 0 with the
document untouched. -/
theorem C3_duplicate_store_not_deduplicated :
    (store_icc_profile doc0 [1, 2, 3] 3).2 = 0
    ∧ find_icc_profile c3_doc1 [1, 2, 3] = some 0
    ∧ load_icc_from_bytes c3_doc1 [1, 2, 3] 3 = (c3_doc1, 0)
    ∧ (store_icc_profile c3_doc1 [1, 2, 3] 3).2 = 1
    ∧ (store_icc_profile c3_doc1 [1, 2, 3] 3).1.document_objects.length
        = c3_doc1.document_objects.length + 2 := by
  refine ⟨?_, ?_, ?_, ?_, ?_⟩ <;> rfl

/-- C10: add_page is atomic on failure — whenever it returns an error, that
error is AnnotationReuse or StructureReuse and the returned document is the
input document, untouched in every field. -/
theorem C10_add_page_atomic_on_failure (doc : PdfDocument)
    (rd ud cs : String) (fws annots structs : List Nat) (tr : Bool)
    (subnav : List Nat) (e : PdfErr)
    (h : (add_page doc rd ud cs fws annots structs tr subnav).2 = some e) :
    (add_page doc rd ud cs fws annots structs tr subnav).1 = doc
    ∧ (e = .AnnotationReuse ∨ e = .StructureReuse) := by
  unfold add_page at h ⊢
  split_ifs at h ⊢ with h1 h2 h3
  · exact ⟨rfl, Or.inl (Option.some.inj h).symm⟩
  · exact ⟨rfl, Or.inl (Option.some.inj h).symm⟩
  · exact ⟨rfl, Or.inr (Option.some.inj h).symm⟩

theorem C10_witness :
    (add_page c10_doc "<< >>" "<<\n" "" [7] [] [] false []).2 = some PdfErr.AnnotationReuse
    ∧ ((add_page c10_doc "<< >>" "<<\n" "" [7] [] [] false []).1 = c10_doc
        ∧ (PdfErr.AnnotationReuse = PdfErr.AnnotationReuse
            ∨ PdfErr.AnnotationReuse = PdfErr.StructureReuse)) :=
  ⟨by rfl, C10_add_page_atomic_on_failure c10_doc "<< >>" "<<\n" "" [7] [] [] false []
    PdfErr.AnnotationReuse (by rfl)⟩

/-- A type 6 shading whose element list holds a continuation patch never
serializes to a byte string: the loop aborts at the first continuation
element, and any earlier full patch can at most fail with an error. -/
theorem shade6_loop_never_ok (shade : ShadingType6) :
    ∀ (elems : List CoonsPatchElement) (s bytes : List Nat),
      (∃ ps cs, CoonsPatchElement.continuation ps cs ∈ elems) →
      serialize_shade6_loop shade s elems ≠ .ok bytes := by
  intro elems
  induction elems with
  | nil =>
    intro s bytes h
    rcases h with ⟨ps, cs, hmem⟩
    exact absurd hmem (List.not_mem_nil _)
  | cons e rest ih =>
    intro s bytes h hok
    rcases h with ⟨ps, cs, hmem⟩
    cases e with
    | continuation a b => exact COut.noConfusion hok
    | full patch =>
      have hmem' : CoonsPatchElement.continuation ps cs ∈ rest := by
        rcases List.mem_cons.mp hmem with h1 | h2
        · exact absurd h1 (by simp)
        · exact h2
      simp only [serialize_shade6_loop] at hok
      cases hp : serialize_shade6_points shade (s ++ [0]) patch.p with
      | ok s1 =>
        rw [hp] at hok
        have hok2 : (match serialize_shade6_colors shade.colorspace s1 patch.c with
            | COut.ok s => serialize_shade6_loop shade s rest
            | r => r) = COut.ok bytes := hok
        cases hc : serialize_shade6_colors shade.colorspace s1 patch.c with
        | ok s2 =>
          rw [hc] at hok2
          have hok3 : serialize_shade6_loop shade s2 rest = COut.ok bytes := hok2
          exact ih s2 bytes ⟨ps, cs, hmem'⟩ hok3
        | err e2 =>
          rw [hc] at hok2
          exact COut.noConfusion hok2
        | abort =>
          rw [hc] at hok2
          exact COut.noConfusion hok2
      | err e2 =>
        rw [hp] at hok
        exact COut.noConfusion hok
      | abort =>
        rw [hp] at hok
        exact COut.noConfusion hok

/-- C7: for a ShadingType6 whose element list contains a continuation patch,
add_shading never produces serialized output — no result id is returned and
no object is added (the document comes back untouched); only full Coons
patches are supported. -/
theorem C7_continuation_patches_rejected (doc : PdfDocument) (shade : ShadingType6)
    (h : has_continuation_patch shade = true) :
    (∀ n, (add_shading6 doc shade).2 ≠ .ok n)
    ∧ (add_shading6 doc shade).1 = doc := by
  have hex : ∃ ps cs, CoonsPatchElement.continuation ps cs ∈ shade.elements := by
    unfold has_continuation_patch at h
    rcases List.any_eq_true.mp h with ⟨e, hmem, he⟩
    cases e with
    | continuation ps cs => exact ⟨ps, cs, hmem⟩
    | full p => simp at he
  have hser : ∀ bytes, serialize_shade6 shade ≠ .ok bytes := fun bytes =>
    shade6_loop_never_ok shade shade.elements [] bytes hex
  unfold add_shading6
  cases hs : serialize_shade6 shade with
  | ok bytes => exact absurd hs (hser bytes)
  | err e => exact ⟨fun n h2 => COut.noConfusion h2, rfl⟩
  | abort => exact ⟨fun n h2 => COut.noConfusion h2, rfl⟩

theorem C7_witness :
    has_continuation_patch c7_shade = true
    ∧ ((∀ n, (add_shading6 doc0 c7_shade).2 ≠ .ok n)
        ∧ (add_shading6 doc0 c7_shade).1 = doc0) :=
  ⟨by decide, C7_continuation_patches_rejected doc0 c7_shade (by decide)⟩

theorem get_subset_last (ss : List (List Nat)) :
    get_subset ss (ss.length - 1) = ss.getLast?.getD [] := by
  unfold get_subset
  rw [List.get?_eq_getElem?, ← List.getLast?_eq_getElem?]

/-- During padding, get_glyph_subset either leaves the subsetter unchanged
(the codepoint already has a slot) or appends the codepoint to the last
subset (which has a free slot). -/
theorem get_glyph_subset_cases (ss : List (List Nat)) (cp : Nat)
    (hne : ss ≠ []) (hlt : (ss.getLast?.getD []).length < 256) :
    (get_glyph_subset ss cp).1 = ss
    ∨ (get_glyph_subset ss cp).1 = ss.dropLast ++ [(ss.getLast?.getD []) ++ [cp]] := by
  unfold get_glyph_subset
  cases hf : find_in_subsets ss cp with
  | some loc => exact Or.inl rfl
  | none =>
    cases hl : ss.getLast? with
    | none => exact absurd (List.getLast?_eq_none_iff.mp hl) hne
    | some last =>
      right
      rw [hl] at hlt
      simp only [Option.getD_some] at hlt
      show (if last.length < 256 then
            (ss.dropLast ++ [last ++ [cp]], ss.length - 1, last.length)
          else (ss ++ [[cp]], ss.length, 0)).1 = ss.dropLast ++ [last ++ [cp]]
      rw [if_pos hlt]

/-- Invariant of the padding loop: when it reports success, the subset count
is unchanged, the last subset has grown to exactly 32 elements, and every
inserted codepoint lies in the candidate range 0x21..0x21+99. -/
theorem pad_loop_ok (n : Nat) :
    ∀ (fuel i : Nat) (ss ss2 : List (List Nat)),
      ss.length = n + 1 →
      (ss.getLast?.getD []).length ≤ 32 →
      i + fuel ≤ 100 →
      pad_loop n i fuel ss = (ss2, true) →
      ss2.length = n + 1
      ∧ (ss2.getLast?.getD []).length = 32
      ∧ ∃ t, ss2.getLast?.getD [] = (ss.getLast?.getD []) ++ t
          ∧ ∀ x ∈ t, 33 ≤ x ∧ x ≤ 132 := by
  intro fuel
  induction fuel with
  | zero =>
    intro i ss ss2 hlen hle hbound hrun
    simp [pad_loop] at hrun
  | succ fuel ih =>
    intro i ss ss2 hlen hle hbound hrun
    have hne : ss ≠ [] := by
      intro h
      rw [h] at hlen
      simp at hlen
    have hn : n = ss.length - 1 := by omega
    have hgs : get_subset ss n = ss.getLast?.getD [] := by
      rw [hn]
      exact get_subset_last ss
    simp only [pad_loop] at hrun
    by_cases hcond : (get_subset ss n).length = 32
    · rw [if_pos hcond] at hrun
      have hss : ss = ss2 := congrArg Prod.fst hrun
      refine ⟨hss ▸ hlen, ?_, [], ?_, by simp⟩
      · rw [← hss, ← hgs]
        exact hcond
      · rw [← hss, List.append_nil]
    · rw [if_neg hcond] at hrun
      have hlt256 : (ss.getLast?.getD []).length < 256 := by omega
      rcases get_glyph_subset_cases ss (33 + i) hne hlt256 with hsame | happ
      · rw [hsame] at hrun
        exact ih (i + 1) ss ss2 hlen hle (by omega) hrun
      · rw [happ] at hrun
        have hpos : 0 < ss.length := List.length_pos.mpr hne
        have hlen1 : (ss.dropLast ++ [(ss.getLast?.getD []) ++ [33 + i]]).length = n + 1 := by
          rw [List.length_append, List.length_dropLast]
          simp
          omega
        have hlast1 : (ss.dropLast ++ [(ss.getLast?.getD []) ++ [33 + i]]).getLast?.getD []
            = (ss.getLast?.getD []) ++ [33 + i] := by
          rw [List.getLast?_concat]
          rfl
        have hlenlast : (ss.getLast?.getD []).length ≠ 32 := by
          rw [← hgs]
          exact hcond
        have hle1 : (((ss.dropLast ++ [(ss.getLast?.getD []) ++ [33 + i]]).getLast?.getD [])).length ≤ 32 := by
          rw [hlast1, List.length_append]
          simp
          omega
        obtain ⟨hl2, hl32, t', ht', hbt'⟩ :=
          ih (i + 1) (ss.dropLast ++ [(ss.getLast?.getD []) ++ [33 + i]]) ss2 hlen1 hle1
            (by omega) hrun
        refine ⟨hl2, hl32, (33 + i) :: t', ?_, ?_⟩
        · rw [ht', hlast1, List.append_assoc]
          rfl
        · intro x hx
          rcases List.mem_cons.mp hx with rfl | hx2
          · constructor
            · omega
            · omega
          · exact hbt' x hx2

/-- C1 (amended): at finalization every font is padded in turn.  A font
whose last subset holds more than 32 elements is left unchanged.  For a
font whose last subset holds at most 32 elements, whenever the padding
routine completes (it aborts the process when the 100 candidate codepoints
0x21..0x21+99 are exhausted before the subset reaches 32 elements, see the
counterexample), the glyphs inserted before space all come from that
candidate range, the last subset ends with exactly 33 elements, and its
local glyph id 32 (0x20) is the space codepoint. -/
theorem C1_pad_subset_fonts_space_padding (ss ss2 : List (List Nat))
    (hok : pad_subset_font ss = .ok ss2) :
    (32 < (ss.getLast?.getD []).length → ss2 = ss)
    ∧ ((ss.getLast?.getD []).length ≤ 32 →
        ss2.length = ss.length
        ∧ (ss2.getLast?.getD []).length = 33
        ∧ (ss2.getLast?.getD [])[32]? = some 32
        ∧ ∃ t, ss2.getLast?.getD [] = (ss.getLast?.getD []) ++ t ++ [32]
            ∧ ∀ x ∈ t, 33 ≤ x ∧ x ≤ 132)
    ∧ (∀ (fonts fonts2 : List (List (List Nat))),
        pad_subset_fonts fonts = .ok fonts2 →
        List.Forall₂ (fun a b => pad_subset_font a = .ok b) fonts fonts2) := by
  have hne : ss ≠ [] := by
    intro h
    rw [h] at hok
    exact COut.noConfusion hok
  have hpos : 0 < ss.length := List.length_pos.mpr hne
  unfold pad_subset_font at hok
  rw [if_neg (by simp [hne])] at hok
  rw [get_subset_last ss] at hok
  refine ⟨?_, ?_, ?_⟩
  · intro hgt
    rw [if_pos hgt] at hok
    exact (COut.ok.inj hok).symm
  · intro hle
    rw [if_neg (by omega)] at hok
    cases hp : pad_loop (ss.length - 1) 0 100 ss with
    | mk ss1 b =>
      rw [hp] at hok
      cases b with
      | false => exact COut.noConfusion hok
      | true =>
        have hss2 : ss2 = unchecked_insert_glyph_to_last_subset ss1 32 :=
          (COut.ok.inj hok).symm
        obtain ⟨hl1, h32, t, ht, hbt⟩ :=
          pad_loop_ok (ss.length - 1) 100 0 ss ss1 (by omega) hle (by omega) hp
        have hne1 : ss1 ≠ [] := by
          intro h
          rw [h] at hl1
          simp at hl1
        have hlast2 : ss2.getLast?.getD [] = (ss1.getLast?.getD []) ++ [32] := by
          rw [hss2]
          unfold unchecked_insert_glyph_to_last_subset
          rw [List.getLast?_concat]
          rfl
        refine ⟨?_, ?_, ?_, t, ?_, hbt⟩
        · rw [hss2]
          unfold unchecked_insert_glyph_to_last_subset
          rw [List.length_append, List.length_dropLast]
          have hpos1 : 0 < ss1.length := List.length_pos.mpr hne1
          simp
          omega
        · rw [hlast2, List.length_append, h32]
          rfl
        · rw [hlast2, ← h32]
          exact List.getElem?_concat_length _ _
        · rw [hlast2, ht]
  · intro fonts
    induction fonts with
    | nil =>
      intro fonts2 h
      have h2 : ([] : List (List (List Nat))) = fonts2 := COut.ok.inj h
      rw [← h2]
      exact List.Forall₂.nil
    | cons f fs ihf =>
      intro fonts2 h
      simp only [pad_subset_fonts] at h
      cases hf : pad_subset_font f with
      | ok f2 =>
        rw [hf] at h
        have h2 : (match pad_subset_fonts fs with
            | COut.ok fs2 => COut.ok (f2 :: fs2)
            | COut.err e => COut.err e
            | COut.abort => COut.abort) = COut.ok fonts2 := h
        cases hfs : pad_subset_fonts fs with
        | ok fs2 =>
          rw [hfs] at h2
          have h3 : f2 :: fs2 = fonts2 := COut.ok.inj h2
          rw [← h3]
          exact List.Forall₂.cons hf (ihf fs2 hfs)
        | err e =>
          rw [hfs] at h2
          exact COut.noConfusion h2
        | abort =>
          rw [hfs] at h2
          exact COut.noConfusion h2
      | err e =>
        rw [hf] at h
        exact COut.noConfusion h
      | abort =>
        rw [hf] at h
        exact COut.noConfusion h

/-- C1 counterexample: a reachable font whose first subset was filled with
the 256 codepoints 33..288 — covering every padding candidate 0x21..0x84 —
and whose last subset holds the single codepoint 300.  Its last subset has
at most 32 elements, yet the padding routine aborts the process instead of
producing a 33-element space-terminated subset: every candidate already has
a slot in the first subset, so the loop never grows the last subset. -/
theorem C1_counterexample :
    (c1_bad_font.getLast?.getD []).length ≤ 32
    ∧ pad_subset_fonts [c1_bad_font] = .abort := by
  constructor
  · decide
  · rfl

theorem C1_witness :
    pad_subset_font c1_font = .ok [c1_padded]
    ∧ ((32 < (c1_font.getLast?.getD []).length → [c1_padded] = c1_font)
        ∧ ((c1_font.getLast?.getD []).length ≤ 32 →
            ([c1_padded] : List (List Nat)).length = c1_font.length
            ∧ (([c1_padded] : List (List Nat)).getLast?.getD []).length = 33
            ∧ (([c1_padded] : List (List Nat)).getLast?.getD [])[32]? = some 32
            ∧ ∃ t, ([c1_padded] : List (List Nat)).getLast?.getD []
                = (c1_font.getLast?.getD []) ++ t ++ [32]
                ∧ ∀ x ∈ t, 33 ≤ x ∧ x ≤ 132)
        ∧ (∀ (fonts fonts2 : List (List (List Nat))),
            pad_subset_fonts fonts = .ok fonts2 →
            List.Forall₂ (fun a b => pad_subset_font a = .ok b) fonts fonts2)) :=
  ⟨by decide, C1_pad_subset_fonts_space_padding c1_font [c1_padded] (by decide)⟩

theorem appendFloat_ok (w : Nat) (v : ℚ) (h0 : 0 ≤ v) (h1 : v ≤ 1) (s : List Nat) :
    appendFloat w s v
      = .ok (s ++ beBytes w (Int.toNat ⌊(2 ^ (8 * w) - 1 : ℚ) * v⌋)) := by
  unfold appendFloat append_floatvalue liftE
  rw [if_neg]
  push_neg
  exact ⟨h0, h1⟩

theorem serialize_shade4_color_ok (cs : Colorspace) (c : Color) (s : List Nat)
    (hm : color_matches cs c) (hr : color_in_range c) :
    ∃ s2, serialize_shade4_color cs c s = .ok s2 := by
  cases c with
  | rgb cc =>
    have hcs : cs = .deviceRGB := hm
    subst hcs
    obtain ⟨h1, h2, h3, h4, h5, h6⟩ := hr
    simp only [serialize_shade4_color, ne_eq, not_true_eq_false, if_false,
      appendFloat_ok 2 cc.r h1 h2, appendFloat_ok 2 cc.g h3 h4, appendFloat_ok 2 cc.b h5 h6]
    exact ⟨_, rfl⟩
  | gray cc =>
    have hcs : cs = .deviceGray := hm
    subst hcs
    obtain ⟨h1, h2⟩ := hr
    simp only [serialize_shade4_color, ne_eq, not_true_eq_false, if_false,
      appendFloat_ok 2 cc.v h1 h2]
    exact ⟨_, rfl⟩
  | cmyk cc =>
    have hcs : cs = .deviceCMYK := hm
    subst hcs
    obtain ⟨h1, h2, h3, h4, h5, h6, h7, h8⟩ := hr
    simp only [serialize_shade4_color, ne_eq, not_true_eq_false, if_false,
      appendFloat_ok 2 cc.c h1 h2, appendFloat_ok 2 cc.m h3 h4, appendFloat_ok 2 cc.y h5 h6,
      appendFloat_ok 2 cc.k h7 h8]
    exact ⟨_, rfl⟩
  | lab l a b => exact hm.elim
  | iccColor i vs => exact hm.elim
  | separation i v => exact hm.elim
  | patternColor i => exact hm.elim

theorem serialize_shade4_color_mismatch (cs : Colorspace) (c : Color) (s : List Nat)
    (hd : is_device_color c) (hm : ¬ color_matches cs c) :
    serialize_shade4_color cs c s = .err .ColorspaceMismatch := by
  cases c with
  | rgb cc =>
    have hcs : cs ≠ .deviceRGB := hm
    simp [serialize_shade4_color, hcs]
  | gray cc =>
    have hcs : cs ≠ .deviceGray := hm
    simp [serialize_shade4_color, hcs]
  | cmyk cc =>
    have hcs : cs ≠ .deviceCMYK := hm
    simp [serialize_shade4_color, hcs]
  | lab l a b => exact hd.elim
  | iccColor i vs => exact hd.elim
  | separation i v => exact hd.elim
  | patternColor i => exact hd.elim

theorem serialize_shade4_elem_ok (shade : ShadingType4) (e : ShadingElement) (s : List Nat)
    (hbox : point_in_box shade.minx shade.miny shade.maxx shade.maxy e.sp.p)
    (hm : color_matches shade.colorspace e.sp.c)
    (hr : color_in_range e.sp.c) :
    ∃ s2, serialize_shade4_elem shade s e = .ok s2 := by
  obtain ⟨hx0, hx1, hy0, hy1⟩ := hbox
  simp only [serialize_shade4_elem,
    appendFloat_ok 4 ((e.sp.p.x - shade.minx) / (shade.maxx - shade.minx)) hx0 hx1,
    appendFloat_ok 4 ((e.sp.p.y - shade.miny) / (shade.maxy - shade.miny)) hy0 hy1]
  exact serialize_shade4_color_ok shade.colorspace e.sp.c _ hm hr

theorem serialize_shade4_elem_mismatch (shade : ShadingType4) (e : ShadingElement)
    (s : List Nat)
    (hbox : point_in_box shade.minx shade.miny shade.maxx shade.maxy e.sp.p)
    (hd : is_device_color e.sp.c)
    (hm : ¬ color_matches shade.colorspace e.sp.c) :
    serialize_shade4_elem shade s e = .err .ColorspaceMismatch := by
  obtain ⟨hx0, hx1, hy0, hy1⟩ := hbox
  simp only [serialize_shade4_elem,
    appendFloat_ok 4 ((e.sp.p.x - shade.minx) / (shade.maxx - shade.minx)) hx0 hx1,
    appendFloat_ok 4 ((e.sp.p.y - shade.miny) / (shade.maxy - shade.miny)) hy0 hy1]
  exact serialize_shade4_color_mismatch shade.colorspace e.sp.c _ hd hm

theorem serialize_shade4_loop_mismatch (shade : ShadingType4) :
    ∀ (elems : List ShadingElement) (s : List Nat),
      (∀ e ∈ elems, point_in_box shade.minx shade.miny shade.maxx shade.maxy e.sp.p) →
      (∀ e ∈ elems, is_device_color e.sp.c ∧ color_in_range e.sp.c) →
      (∃ e ∈ elems, ¬ color_matches shade.colorspace e.sp.c) →
      serialize_shade4_loop shade s elems = .err .ColorspaceMismatch := by
  intro elems
  induction elems with
  | nil =>
    intro s _ _ hex
    rcases hex with ⟨e, he, _⟩
    exact absurd he (List.not_mem_nil _)
  | cons e rest ih =>
    intro s hbox hcol hex
    simp only [serialize_shade4_loop]
    by_cases hm : color_matches shade.colorspace e.sp.c
    · obtain ⟨s2, hs2⟩ := serialize_shade4_elem_ok shade e s
        (hbox e (List.mem_cons_self e rest)) hm (hcol e (List.mem_cons_self e rest)).2
      rw [hs2]
      show serialize_shade4_loop shade s2 rest = .err .ColorspaceMismatch
      have hex' : ∃ e2 ∈ rest, ¬ color_matches shade.colorspace e2.sp.c := by
        rcases hex with ⟨e2, he2, hf⟩
        rcases List.mem_cons.mp he2 with rfl | h2
        · exact absurd hm hf
        · exact ⟨e2, h2, hf⟩
      exact ih s2 (fun x hx => hbox x (List.mem_cons_of_mem e hx))
        (fun x hx => hcol x (List.mem_cons_of_mem e hx)) hex'
    · rw [serialize_shade4_elem_mismatch shade e s (hbox e (List.mem_cons_self e rest))
        (hcol e (List.mem_cons_self e rest)).1 hm]

theorem serialize_shade6_points_ok (shade : ShadingType6) :
    ∀ (pts : List PdfPoint) (s : List Nat),
      (∀ p ∈ pts, point_in_box shade.minx shade.miny shade.maxx shade.maxy p) →
      ∃ s2, serialize_shade6_points shade s pts = .ok s2 := by
  intro pts
  induction pts with
  | nil => exact fun s _ => ⟨s, rfl⟩
  | cons p rest ih =>
    intro s hbox
    obtain ⟨hx0, hx1, hy0, hy1⟩ := hbox p (List.mem_cons_self p rest)
    simp only [serialize_shade6_points,
      appendFloat_ok 4 ((p.x - shade.minx) / (shade.maxx - shade.minx)) hx0 hx1,
      appendFloat_ok 4 ((p.y - shade.miny) / (shade.maxy - shade.miny)) hy0 hy1]
    exact ih _ (fun q hq => hbox q (List.mem_cons_of_mem p hq))

theorem serialize_shade6_color_ok (cs : Colorspace) (c : Color) (s : List Nat)
    (hm : color_matches cs c) (hr : color_in_range c) :
    ∃ s2, serialize_shade6_color cs s c = .ok s2 := by
  cases c with
  | rgb cc =>
    have hcs : cs = .deviceRGB := hm
    subst hcs
    obtain ⟨h1, h2, h3, h4, h5, h6⟩ := hr
    simp only [serialize_shade6_color,
      appendFloat_ok 2 cc.r h1 h2, appendFloat_ok 2 cc.g h3 h4, appendFloat_ok 2 cc.b h5 h6]
    exact ⟨_, rfl⟩
  | gray cc =>
    have hcs : cs = .deviceGray := hm
    subst hcs
    obtain ⟨h1, h2⟩ := hr
    simp only [serialize_shade6_color, appendFloat_ok 2 cc.v h1 h2]
    exact ⟨_, rfl⟩
  | cmyk cc =>
    have hcs : cs = .deviceCMYK := hm
    subst hcs
    obtain ⟨h1, h2, h3, h4, h5, h6, h7, h8⟩ := hr
    simp only [serialize_shade6_color,
      appendFloat_ok 2 cc.c h1 h2, appendFloat_ok 2 cc.m h3 h4, appendFloat_ok 2 cc.y h5 h6,
      appendFloat_ok 2 cc.k h7 h8]
    exact ⟨_, rfl⟩
  | lab l a b => exact hm.elim
  | iccColor i vs => exact hm.elim
  | separation i v => exact hm.elim
  | patternColor i => exact hm.elim

theorem serialize_shade6_color_mismatch (cs : Colorspace) (c : Color) (s : List Nat)
    (hm : ¬ color_matches cs c) :
    serialize_shade6_color cs s c = .err .ColorspaceMismatch := by
  cases cs <;> cases c <;>
    first
      | rfl
      | exact absurd rfl hm

theorem serialize_shade6_colors_ok (cs : Colorspace) :
    ∀ (cls : List Color) (s : List Nat),
      (∀ c ∈ cls, color_matches cs c ∧ color_in_range c) →
      ∃ s2, serialize_shade6_colors cs s cls = .ok s2 := by
  intro cls
  induction cls with
  | nil => exact fun s _ => ⟨s, rfl⟩
  | cons c rest ih =>
    intro s hall
    obtain ⟨s2, hs2⟩ := serialize_shade6_color_ok cs c s
      (hall c (List.mem_cons_self c rest)).1 (hall c (List.mem_cons_self c rest)).2
    simp only [serialize_shade6_colors, hs2]
    exact ih _ (fun q hq => hall q (List.mem_cons_of_mem c hq))

theorem serialize_shade6_colors_mismatch (cs : Colorspace) :
    ∀ (cls : List Color) (s : List Nat),
      (∀ c ∈ cls, color_matches cs c → color_in_range c) →
      (∃ c ∈ cls, ¬ color_matches cs c) →
      serialize_shade6_colors cs s cls = .err .ColorspaceMismatch := by
  intro cls
  induction cls with
  | nil =>
    intro s _ hex
    rcases hex with ⟨c, hc, _⟩
    exact absurd hc (List.not_mem_nil _)
  | cons c rest ih =>
    intro s hall hex
    by_cases hm : color_matches cs c
    · obtain ⟨s2, hs2⟩ := serialize_shade6_color_ok cs c s hm
        (hall c (List.mem_cons_self c rest) hm)
      simp only [serialize_shade6_colors, hs2]
      have hex' : ∃ c2 ∈ rest, ¬ color_matches cs c2 := by
        rcases hex with ⟨c2, hc2, hf⟩
        rcases List.mem_cons.mp hc2 with rfl | h2
        · exact absurd hm hf
        · exact ⟨c2, h2, hf⟩
      exact ih _ (fun q hq => hall q (List.mem_cons_of_mem c hq)) hex'
    · simp only [serialize_shade6_colors, serialize_shade6_color_mismatch cs c s hm]

theorem shade6_loop_full_mismatch (shade : ShadingType6) :
    ∀ (patches : List FullCoonsPatch) (s : List Nat),
      (∀ pa ∈ patches, ∀ p ∈ pa.p,
        point_in_box shade.minx shade.miny shade.maxx shade.maxy p) →
      (∀ pa ∈ patches, ∀ c ∈ pa.c,
        color_matches shade.colorspace c → color_in_range c) →
      (∃ pa ∈ patches, ∃ c ∈ pa.c, ¬ color_matches shade.colorspace c) →
      serialize_shade6_loop shade s (patches.map CoonsPatchElement.full)
        = .err .ColorspaceMismatch := by
  intro patches
  induction patches with
  | nil =>
    intro s _ _ hex
    rcases hex with ⟨pa, hpa, _⟩
    exact absurd hpa (List.not_mem_nil _)
  | cons pa rest ih =>
    intro s hbox hrng hex
    simp only [List.map_cons, serialize_shade6_loop]
    obtain ⟨s1, hs1⟩ := serialize_shade6_points_ok shade pa.p (s ++ [0])
      (hbox pa (List.mem_cons_self pa rest))
    rw [hs1]
    by_cases hhead : ∃ c ∈ pa.c, ¬ color_matches shade.colorspace c
    · have hc := serialize_shade6_colors_mismatch shade.colorspace pa.c s1
        (hrng pa (List.mem_cons_self pa rest)) hhead
      have hred : (match serialize_shade6_colors shade.colorspace s1 pa.c with
          | COut.ok s => serialize_shade6_loop shade s (rest.map CoonsPatchElement.full)
          | r => r) = COut.err .ColorspaceMismatch := by
        rw [hc]
      exact hred
    · have hallm : ∀ c ∈ pa.c, color_matches shade.colorspace c := by
        intro c hc
        by_contra hfalse
        exact hhead ⟨c, hc, hfalse⟩
      obtain ⟨s2, hs2⟩ := serialize_shade6_colors_ok shade.colorspace pa.c s1
        (fun c hc => ⟨hallm c hc, hrng pa (List.mem_cons_self pa rest) c hc (hallm c hc)⟩)
      have hred : (match serialize_shade6_colors shade.colorspace s1 pa.c with
          | COut.ok s => serialize_shade6_loop shade s (rest.map CoonsPatchElement.full)
          | r => r) = serialize_shade6_loop shade s2 (rest.map CoonsPatchElement.full) := by
        rw [hs2]
      rw [hred]
      have hex' : ∃ pa2 ∈ rest, ∃ c ∈ pa2.c, ¬ color_matches shade.colorspace c := by
        rcases hex with ⟨pa2, hpa2, hf⟩
        rcases List.mem_cons.mp hpa2 with rfl | h2
        · exact absurd hf hhead
        · exact ⟨pa2, h2, hf⟩
      exact ih s2 (fun x hx => hbox x (List.mem_cons_of_mem pa hx))
        (fun x hx => hrng x (List.mem_cons_of_mem pa hx)) hex'

/-- C6: for shading types 4 and 6, a vertex color (type 4) or a patch corner
color (type 6) whose variant differs from the shade's declared colorspace
makes serialization fail with ColorspaceMismatch, and add_shading returns
that error with the document unchanged — no object is added.  The remaining
data is assumed well-formed (coordinates inside the declared bounding box,
channel values in [0,1], type 4 colors device colors, type 6 elements full
patches), since earlier malformed data would fail first with its own
error. -/
theorem C6_colorspace_mismatch_rejected (doc4 doc6 : PdfDocument)
    (s4 : ShadingType4) (s6 : ShadingType6) (patches : List FullCoonsPatch)
    (h4box : ∀ e ∈ s4.elements,
      point_in_box s4.minx s4.miny s4.maxx s4.maxy e.sp.p)
    (h4dev : ∀ e ∈ s4.elements,
      is_device_color e.sp.c ∧ color_in_range e.sp.c)
    (h4mis : ∃ e ∈ s4.elements, ¬ color_matches s4.colorspace e.sp.c)
    (h6full : s6.elements = patches.map CoonsPatchElement.full)
    (h6box : ∀ pa ∈ patches, ∀ p ∈ pa.p,
      point_in_box s6.minx s6.miny s6.maxx s6.maxy p)
    (h6rng : ∀ pa ∈ patches, ∀ c ∈ pa.c,
      color_matches s6.colorspace c → color_in_range c)
    (h6mis : ∃ pa ∈ patches, ∃ c ∈ pa.c, ¬ color_matches s6.colorspace c) :
    serialize_shade4 s4 = .err .ColorspaceMismatch
    ∧ add_shading4 doc4 s4 = (doc4, .err .ColorspaceMismatch)
    ∧ serialize_shade6 s6 = .err .ColorspaceMismatch
    ∧ add_shading6 doc6 s6 = (doc6, .err .ColorspaceMismatch) := by
  have h4 : serialize_shade4 s4 = .err .ColorspaceMismatch :=
    serialize_shade4_loop_mismatch s4 s4.elements [] h4box h4dev h4mis
  have h6 : serialize_shade6 s6 = .err .ColorspaceMismatch := by
    unfold serialize_shade6
    rw [h6full]
    exact shade6_loop_full_mismatch s6 patches [] h6box h6rng h6mis
  refine ⟨h4, ?_, h6, ?_⟩
  · unfold add_shading4
    rw [h4]
  · unfold add_shading6
    rw [h6]

theorem C6_witness :
    (∀ e ∈ c6_shade4.elements,
      point_in_box c6_shade4.minx c6_shade4.miny c6_shade4.maxx c6_shade4.maxy e.sp.p)
    ∧ (∀ e ∈ c6_shade4.elements,
        is_device_color e.sp.c ∧ color_in_range e.sp.c)
    ∧ (∃ e ∈ c6_shade4.elements, ¬ color_matches c6_shade4.colorspace e.sp.c)
    ∧ c6_shade6.elements = [c6_patch].map CoonsPatchElement.full
    ∧ (∀ pa ∈ [c6_patch], ∀ p ∈ pa.p,
        point_in_box c6_shade6.minx c6_shade6.miny c6_shade6.maxx c6_shade6.maxy p)
    ∧ (∀ pa ∈ [c6_patch], ∀ c ∈ pa.c,
        color_matches c6_shade6.colorspace c → color_in_range c)
    ∧ (∃ pa ∈ [c6_patch], ∃ c ∈ pa.c, ¬ color_matches c6_shade6.colorspace c)
    ∧ (serialize_shade4 c6_shade4 = .err .ColorspaceMismatch
        ∧ add_shading4 doc0 c6_shade4 = (doc0, .err .ColorspaceMismatch)
        ∧ serialize_shade6 c6_shade6 = .err .ColorspaceMismatch
        ∧ add_shading6 doc0 c6_shade6 = (doc0, .err .ColorspaceMismatch)) := by
  have hbox4 : ∀ e ∈ c6_shade4.elements,
      point_in_box c6_shade4.minx c6_shade4.miny c6_shade4.maxx c6_shade4.maxy e.sp.p := by
    intro e he
    simp only [c6_shade4, List.mem_singleton] at he
    subst he
    unfold point_in_box
    norm_num [c6_shade4]
  have hdev4 : ∀ e ∈ c6_shade4.elements,
      is_device_color e.sp.c ∧ color_in_range e.sp.c := by
    intro e he
    simp only [c6_shade4, List.mem_singleton] at he
    subst he
    exact ⟨trivial, by unfold color_in_range; norm_num⟩
  have hmis4 : ∃ e ∈ c6_shade4.elements, ¬ color_matches c6_shade4.colorspace e.sp.c := by
    refine ⟨_, List.mem_singleton.mpr rfl, ?_⟩
    show ¬ (Colorspace.deviceRGB = Colorspace.deviceGray)
    decide
  have hfull6 : c6_shade6.elements = [c6_patch].map CoonsPatchElement.full := rfl
  have hbox6 : ∀ pa ∈ [c6_patch], ∀ p ∈ pa.p,
      point_in_box c6_shade6.minx c6_shade6.miny c6_shade6.maxx c6_shade6.maxy p := by
    intro pa hpa p hp
    simp only [List.mem_singleton] at hpa
    subst hpa
    simp only [c6_patch, List.mem_replicate] at hp
    rw [hp.2]
    unfold point_in_box
    norm_num [c6_shade6]
  have hrng6 : ∀ pa ∈ [c6_patch], ∀ c ∈ pa.c,
      color_matches c6_shade6.colorspace c → color_in_range c := by
    intro pa hpa c hc hm
    simp only [List.mem_singleton] at hpa
    subst hpa
    simp only [c6_patch, List.mem_replicate] at hc
    rw [hc.2] at hm
    exact absurd hm (by show ¬ (Colorspace.deviceRGB = Colorspace.deviceGray); decide)
  have hmis6 : ∃ pa ∈ [c6_patch], ∃ c ∈ pa.c, ¬ color_matches c6_shade6.colorspace c := by
    refine ⟨c6_patch, List.mem_singleton.mpr rfl, Color.gray { v := 1/2 }, ?_, ?_⟩
    · simp [c6_patch, List.mem_replicate]
    · show ¬ (Colorspace.deviceRGB = Colorspace.deviceGray)
      decide
  exact ⟨hbox4, hdev4, hmis4, hfull6, hbox6, hrng6, hmis6,
    C6_colorspace_mismatch_rejected doc0 doc0 c6_shade4 c6_shade6 [c6_patch]
      hbox4 hdev4 hmis4 hfull6 hbox6 hrng6 hmis6⟩

theorem objects_extend_refl (d : PdfDocument) : objects_extend d d :=
  ⟨[], by simp⟩

theorem objects_extend_trans {a b c : PdfDocument}
    (h1 : objects_extend a b) (h2 : objects_extend b c) : objects_extend a c := by
  obtain ⟨t1, ht1⟩ := h1
  obtain ⟨t2, ht2⟩ := h2
  exact ⟨t1 ++ t2, by rw [ht2, ht1, List.append_assoc]⟩

theorem key_used_iff (m : List (Nat × α)) (k : Nat) :
    key_used m k = true ↔ k ∈ m.map Prod.fst := by
  unfold key_used
  constructor
  · intro h
    obtain ⟨x, hx⟩ := Option.isSome_iff_exists.mp h
    have hmem := List.mem_of_find?_eq_some hx
    have hp := List.find?_some hx
    have hk : x.1 = k := by simpa using hp
    exact List.mem_map.mpr ⟨x, hmem, hk⟩
  · intro h
    obtain ⟨x, hmem, hk⟩ := List.mem_map.mp h
    cases hf : m.find? (fun q => q.1 == k) with
    | some y => rfl
    | none =>
      have := List.find?_eq_none.mp hf x hmem
      simp [hk] at this

theorem add_subnav_nodes_eq (first_obj : Nat) :
    ∀ (l : List Nat) (i : Nat) (prev : Option Nat) (doc : PdfDocument),
      ∃ t, add_subnav_nodes first_obj i prev doc l
        = { doc with document_objects := doc.document_objects ++ t } := by
  intro l
  induction l with
  | nil =>
    intro i prev doc
    refine ⟨[], ?_⟩
    simp [add_subnav_nodes]
  | cons sid rest ih =>
    intro i prev doc
    obtain ⟨t, ht⟩ := ih (i + 1) (some sid)
      (add_object doc (.fullPDFObject (subnav_node_dict doc first_obj i prev sid) [])).1
    refine ⟨ObjectType.fullPDFObject (subnav_node_dict doc first_obj i prev sid) [] :: t, ?_⟩
    simp only [add_subnav_nodes, add_object] at ht ⊢
    rw [ht]
    simp

theorem add_object_objx (d : PdfDocument) (o : ObjectType) :
    objects_extend d (add_object d o).1 :=
  ⟨[o], rfl⟩

theorem add_subnav_nodes_objx (first_obj i : Nat) (prev : Option Nat)
    (d : PdfDocument) (l : List Nat) :
    objects_extend d (add_subnav_nodes first_obj i prev d l) := by
  obtain ⟨t, ht⟩ := add_subnav_nodes_eq first_obj l i prev d
  exact ⟨t, by rw [ht]⟩

theorem create_subnavigation_eq (doc : PdfDocument) (subnav : List Nat) :
    ∃ t, (create_subnavigation doc subnav).1
      = { doc with document_objects := doc.document_objects ++ t } := by
  simp only [create_subnavigation, add_object]
  obtain ⟨t, ht⟩ := add_subnav_nodes_eq
    (doc.document_objects ++ [ObjectType.fullPDFObject (subnav_root_dict doc subnav
      doc.document_objects.length) []]).length
    subnav 0 none
    { doc with document_objects := doc.document_objects
        ++ [ObjectType.fullPDFObject (subnav_root_dict doc subnav
              doc.document_objects.length) []] }
  rw [ht]
  refine ⟨[ObjectType.fullPDFObject (subnav_root_dict doc subnav
      doc.document_objects.length) []] ++ t
    ++ [ObjectType.fullPDFObject (subnav_last_dict
      { doc with document_objects := doc.document_objects
          ++ [ObjectType.fullPDFObject (subnav_root_dict doc subnav
                doc.document_objects.length) []] ++ t } subnav
      (doc.document_objects ++ [ObjectType.fullPDFObject (subnav_root_dict doc subnav
        doc.document_objects.length) []]).length) []], ?_⟩
  simp

theorem generate_info_object_objx (d : PdfDocument) :
    objects_extend d (generate_info_object d) :=
  ⟨_, rfl⟩

theorem objx_append (d : PdfDocument) (l : List ObjectType) :
    objects_extend d { d with document_objects := d.document_objects ++ l } :=
  ⟨l, rfl⟩

theorem create_subnavigation_objx (d : PdfDocument) (subnav : List Nat) :
    objects_extend d (create_subnavigation d subnav).1 := by
  obtain ⟨t, ht⟩ := create_subnavigation_eq d subnav
  exact ⟨t, by rw [ht]⟩

theorem objx_of_proj_eq {d d2 : PdfDocument}
    (h : d2.document_objects = d.document_objects) : objects_extend d d2 :=
  ⟨[], by rw [List.append_nil, h]⟩

theorem create_separation_objx (d : PdfDocument) (name : String) (f : DeviceCMYKColor) :
    objects_extend d (create_separation d name f).1 := by
  apply objects_extend_trans (add_object_objx d _)
  apply objects_extend_trans (add_object_objx _ _)
  apply objx_of_proj_eq
  rfl

theorem store_icc_profile_objx (d : PdfDocument) (contents : List Nat) (nch : Nat) :
    objects_extend d (store_icc_profile d contents nch).1 := by
  unfold store_icc_profile
  split
  · exact objects_extend_refl d
  · apply objects_extend_trans (add_object_objx d _)
    apply objects_extend_trans (add_object_objx _ _)
    apply objx_of_proj_eq
    rfl

theorem create_page_group_objx (d : PdfDocument) :
    objects_extend d (create_page_group d).1 :=
  ⟨_, rfl⟩

theorem create_output_intent_objx (d : PdfDocument) :
    objects_extend d (create_output_intent d) :=
  ⟨_, rfl⟩

theorem init_profile_step_objx (d : PdfDocument) :
    objects_extend d (init_profile_step d).1 := by
  unfold init_profile_step
  split
  · split
    · exact objects_extend_refl d
    · exact objects_extend_trans (store_icc_profile_objx d d.cm_rgb 3) (objx_of_proj_eq rfl)
  · split
    · exact objects_extend_refl d
    · exact objects_extend_trans (store_icc_profile_objx d d.cm_gray 1) (objx_of_proj_eq rfl)
  · split
    · exact objects_extend_refl d
    · exact objects_extend_trans (store_icc_profile_objx d d.cm_cmyk 4) (objx_of_proj_eq rfl)

theorem init_tail_objx (d : PdfDocument) :
    objects_extend d (init_tail d).1 := by
  obtain ⟨t1, ht1⟩ := create_page_group_objx d
  have hbase : ∀ X : PdfDocument, X.document_objects
      = (create_page_group d).1.document_objects ++ [ObjectType.delayedPages] →
      objects_extend d X := by
    intro X hX
    exact ⟨t1 ++ [ObjectType.delayedPages], by rw [hX, ht1, List.append_assoc]⟩
  unfold init_tail
  split
  next doc1 objid heq =>
    have hobj : doc1.document_objects = (create_page_group d).1.document_objects := by
      rw [heq]
    dsimp only
    split
    · exact hbase _ (by simp [hobj])
    · split_ifs
      · exact hbase _ (by simp [hobj])
      · exact hbase _ (by simp [hobj])
      · exact objects_extend_trans (hbase _ (by simp [hobj])) (create_output_intent_objx _)

theorem init_core_objx (X : PdfDocument) :
    objects_extend X (match init_profile_step X with
      | (doc, some e) => (doc, some e)
      | (doc, none) => init_tail doc).1 := by
  rcases hps : init_profile_step X with ⟨d1, oe⟩
  have h1 : objects_extend X d1 := by
    have h := init_profile_step_objx X
    rw [hps] at h
    exact h
  cases oe with
  | none => exact objects_extend_trans h1 (init_tail_objx d1)
  | some e => exact h1

theorem init_objx (doc : PdfDocument) :
    objects_extend
      { doc with document_objects := doc.document_objects ++ [ObjectType.dummyIndexZero] }
      (PdfDocument.init doc).1 := by
  unfold PdfDocument.init
  refine objects_extend_trans ?_ (init_core_objx _)
  apply objects_extend_trans (generate_info_object_objx _)
  split
  · exact create_separation_objx _ "All" (DeviceCMYKColor.mk 1 1 1 1)
  · exact objects_extend_refl _

theorem objx_of_add_object_eq {doc d2 : PdfDocument} {o : ObjectType} {n : Nat}
    (h : add_object doc o = (d2, n)) : objects_extend doc d2 := by
  have hx := add_object_objx doc o
  rw [h] at hx
  exact hx

theorem objx_of_create_subnav_eq {doc d2 : PdfDocument} {l : List Nat} {r : Nat}
    (h : create_subnavigation doc l = (d2, r)) : objects_extend doc d2 := by
  have hx := create_subnavigation_objx doc l
  rw [h] at hx
  exact hx

/-- Appending an object to a document whose table equals the source's keeps
the source's table as a prefix. -/
theorem add_object_objx2 (d d2 : PdfDocument) (o : ObjectType)
    (h : d2.document_objects = d.document_objects) :
    objects_extend d (add_object d2 o).1 :=
  ⟨[o], by show d2.document_objects ++ [o] = _; rw [h]⟩

theorem add_page_body_objx (doc : PdfDocument)
    (rd ud cs : String) (fws annots structs : List Nat) (tr : Bool) (subnav : List Nat) :
    objects_extend doc (add_page_body doc rd ud cs fws annots structs tr subnav) := by
  cases hsn : subnav.isEmpty <;> cases hst : structs.isEmpty <;>
    cases hc : doc.opts.compress_streams <;>
    simp only [add_page_body, add_object, hc, hsn, hst, Bool.false_eq_true, if_true,
      if_false, ite_true, ite_false]
  all_goals
    first
      | exact objects_extend_trans (add_object_objx doc _)
          (objects_extend_trans (add_object_objx2 _ _ _ rfl)
            (objects_extend_trans (create_subnavigation_objx _ subnav)
              (objects_extend_trans (add_object_objx2 _ _ _ rfl) (objx_of_proj_eq rfl))))
      | exact objects_extend_trans (add_object_objx doc _)
          (objects_extend_trans (add_object_objx2 _ _ _ rfl)
            (objects_extend_trans (add_object_objx2 _ _ _ rfl) (objx_of_proj_eq rfl)))

theorem add_page_objx (doc : PdfDocument)
    (rd ud cs : String) (fws annots structs : List Nat) (tr : Bool) (subnav : List Nat) :
    objects_extend doc (add_page doc rd ud cs fws annots structs tr subnav).1 := by
  unfold add_page
  split_ifs
  · exact objects_extend_refl doc
  · exact objects_extend_refl doc
  · exact objects_extend_refl doc
  · exact add_page_body_objx doc rd ud cs fws annots structs tr subnav

theorem load_icc_from_bytes_objx (doc : PdfDocument) (contents : List Nat) (nch : Nat) :
    objects_extend doc (load_icc_from_bytes doc contents nch).1 := by
  unfold load_icc_from_bytes
  split
  · exact objects_extend_refl doc
  · exact store_icc_profile_objx doc contents nch

theorem add_pattern_objx (doc : PdfDocument) (ctx : PdfDrawContext) :
    objects_extend doc (add_pattern doc ctx).1 := by
  unfold add_pattern
  split_ifs
  · exact objects_extend_refl doc
  · exact objects_extend_refl doc
  · exact objects_extend_refl doc
  · exact add_object_objx doc _

theorem add_transparency_group_objx (doc : PdfDocument) (ctx : PdfDrawContext) :
    objects_extend doc (add_transparency_group doc ctx).1 := by
  unfold add_transparency_group
  split_ifs
  · exact objects_extend_refl doc
  · exact objects_extend_refl doc
  · exact objects_extend_trans (add_object_objx doc _) (objx_of_proj_eq rfl)

theorem add_shading4_objx (doc : PdfDocument) (shade : ShadingType4) :
    objects_extend doc (add_shading4 doc shade).1 := by
  unfold add_shading4
  split
  · exact objects_extend_refl doc
  · exact objects_extend_refl doc
  · exact add_object_objx doc _

theorem add_shading6_objx (doc : PdfDocument) (shade : ShadingType6) :
    objects_extend doc (add_shading6 doc shade).1 := by
  unfold add_shading6
  split
  · exact objects_extend_refl doc
  · exact objects_extend_refl doc
  · exact add_object_objx doc _

/-- Every embedded document operation only ever appends to the object
table. -/
theorem docStep_objx {d d2 : PdfDocument} (h : DocStep d d2) :
    objects_extend d d2 := by
  cases h with
  | ofAddObject o => exact add_object_objx d o
  | ofAddPage r =>
    exact add_page_objx d r.resource_dict r.unclosed_object_dict r.command_stream
      r.fws r.annots r.structs r.has_transition r.subnav
  | ofStoreIcc contents nch => exact store_icc_profile_objx d contents nch
  | ofLoadIcc contents nch => exact load_icc_from_bytes_objx d contents nch
  | ofAddPattern ctx => exact add_pattern_objx d ctx
  | ofAddTransparencyGroup ctx => exact add_transparency_group_objx d ctx
  | ofAddShading4 shade => exact add_shading4_objx d shade
  | ofAddShading6 shade => exact add_shading6_objx d shade
  | ofCreateSeparation name fallback => exact create_separation_objx d name fallback
  | ofCreateSubnav subnav => exact create_subnavigation_objx d subnav

theorem docSteps_objx {d d2 : PdfDocument}
    (h : Relation.ReflTransGen DocStep d d2) : objects_extend d d2 := by
  induction h with
  | refl => exact objects_extend_refl d
  | tail hpre hstep ih => exact objects_extend_trans ih (docStep_objx hstep)

/-- C9: indirect object numbers are 1-based, contiguous and equal to the
insertion position — add_object hands out the current table size and
appends exactly one entry; init places the sentinel at index 0; and across
any sequence of embedded document operations the table only grows at the
end, so an id's entry never changes position. -/
theorem C9_object_numbering (doc : PdfDocument) (o : ObjectType)
    (d d2 : PdfDocument) (docId : Nat) (opts : PdfGenerationData)
    (rgb gray cmyk : List Nat)
    (hsteps : Relation.ReflTransGen DocStep d d2) :
    ((add_object doc o).2 = doc.document_objects.length
      ∧ (add_object doc o).1.document_objects = doc.document_objects ++ [o])
    ∧ ((PdfDocument.construct docId opts rgb gray cmyk).1).document_objects.get? 0
        = some ObjectType.dummyIndexZero
    ∧ (∃ t, d2.document_objects = d.document_objects ++ t)
    ∧ (∀ i, i < d.document_objects.length →
        d2.document_objects.get? i = d.document_objects.get? i) := by
  obtain ⟨t, ht⟩ := docSteps_objx hsteps
  refine ⟨⟨rfl, rfl⟩, ?_, ⟨t, ht⟩, ?_⟩
  · obtain ⟨t2, ht2⟩ := init_objx
      { docId := docId
        opts := opts
        cm_rgb := rgb
        cm_gray := gray
        cm_cmyk := cmyk
        document_objects := []
        icc_profiles := []
        pages := []
        form_use := []
        annot_use := []
        structure_use := []
        structure_parent_tree_items := []
        separation_objects := []
        form_widgets := []
        ocg_items := []
        transparency_groups := []
        output_profile := none
        pages_object := 0
        page_group_object := 0
        output_intent_object := none }
    show ((PdfDocument.init _).1).document_objects.get? 0 = some ObjectType.dummyIndexZero
    rw [ht2]
    rfl
  · intro i hi
    rw [ht, List.get?_append hi]

theorem C9_witness :
    Relation.ReflTransGen DocStep doc0 (add_object doc0 ObjectType.delayedPages).1
    ∧ (((add_object doc0 ObjectType.delayedPages).2 = doc0.document_objects.length
        ∧ (add_object doc0 ObjectType.delayedPages).1.document_objects
            = doc0.document_objects ++ [ObjectType.delayedPages])
      ∧ ((PdfDocument.construct 0 opts0 [] [] []).1).document_objects.get? 0
          = some ObjectType.dummyIndexZero
      ∧ (∃ t, ((add_object doc0 ObjectType.delayedPages).1).document_objects
          = doc0.document_objects ++ t)
      ∧ (∀ i, i < doc0.document_objects.length →
          ((add_object doc0 ObjectType.delayedPages).1).document_objects.get? i
            = doc0.document_objects.get? i)) :=
  ⟨Relation.ReflTransGen.single (DocStep.ofAddObject doc0 ObjectType.delayedPages),
    C9_object_numbering doc0 ObjectType.delayedPages doc0
      (add_object doc0 ObjectType.delayedPages).1 0 opts0 [] [] []
      (Relation.ReflTransGen.single (DocStep.ofAddObject doc0 ObjectType.delayedPages))⟩

/-- create_subnavigation only appends objects, so the form-use map is
untouched. -/
theorem create_subnav_form_use (doc : PdfDocument) (subnav : List Nat) :
    (create_subnavigation doc subnav).1.form_use = doc.form_use := by
  obtain ⟨t, ht⟩ := create_subnavigation_eq doc subnav
  rw [ht]

theorem create_subnav_annot_use (doc : PdfDocument) (subnav : List Nat) :
    (create_subnavigation doc subnav).1.annot_use = doc.annot_use := by
  obtain ⟨t, ht⟩ := create_subnavigation_eq doc subnav
  rw [ht]

theorem create_subnav_structure_use (doc : PdfDocument) (subnav : List Nat) :
    (create_subnavigation doc subnav).1.structure_use = doc.structure_use := by
  obtain ⟨t, ht⟩ := create_subnavigation_eq doc subnav
  rw [ht]

/-- What one successful add_page body adds to the three usage maps: every
requested widget and annotation keyed to the new page object, and every
requested structure item keyed to its position on the new page. -/
theorem add_page_body_usage (doc : PdfDocument) (rd ud cs : String)
    (fws annots structs : List Nat) (tr : Bool) (subnav : List Nat) :
    ∃ N pn : Nat,
      (add_page_body doc rd ud cs fws annots structs tr subnav).form_use
          = doc.form_use ++ fws.map (fun a => (a, N))
      ∧ (add_page_body doc rd ud cs fws annots structs tr subnav).annot_use
          = doc.annot_use ++ annots.map (fun a => (a, N))
      ∧ (add_page_body doc rd ud cs fws annots structs tr subnav).structure_use
          = doc.structure_use ++ structs.enum.map
              (fun (q : Nat × Nat) => (q.2, StructureUsage.mk pn q.1)) := by
  cases hsn : subnav.isEmpty <;> cases hst : structs.isEmpty <;>
    cases hc : doc.opts.compress_streams <;>
    simp only [add_page_body, add_object, hc, hsn, hst, Bool.false_eq_true, if_true,
      if_false, ite_true, ite_false, create_subnav_form_use, create_subnav_annot_use,
      create_subnav_structure_use]
  all_goals exact ⟨_, _, rfl, rfl, rfl⟩

/-- Appending fresh keys to a duplicate-free usage map keeps it
duplicate-free. -/
theorem nodup_usage_append {α : Type} {m new : List (Nat × α)} {ks : List Nat}
    (hm : (m.map Prod.fst).Nodup) (hmap : new.map Prod.fst = ks) (hks : ks.Nodup)
    (hunused : ks.any (key_used m) = false) :
    ((m ++ new).map Prod.fst).Nodup := by
  rw [List.map_append, hmap]
  refine List.Nodup.append hm hks ?_
  intro a ham hak
  have h1 : key_used m a = true := (key_used_iff m a).mpr ham
  have h2 : ks.any (key_used m) = true := List.any_eq_true.mpr ⟨a, hak, h1⟩
  rw [hunused] at h2
  exact Bool.false_ne_true h2

/-- One add_page call preserves the at-most-one-page attachment invariant
when the request's own id sets are duplicate-free. -/
theorem attached_once_add_page_req (doc : PdfDocument) (r : PageReq)
    (h : attached_once doc) (hf : r.fws.Nodup) (ha : r.annots.Nodup)
    (hs : r.structs.Nodup) :
    attached_once (add_page_req doc r).1 := by
  unfold add_page_req add_page
  split_ifs with h1 h2 h3
  · exact h
  · exact h
  · exact h
  · obtain ⟨N, pn, hfu, hau, hsu⟩ := add_page_body_usage doc r.resource_dict
      r.unclosed_object_dict r.command_stream r.fws r.annots r.structs
      r.has_transition r.subnav
    dsimp only
    refine ⟨?_, ?_, ?_⟩
    · rw [hfu]
      exact nodup_usage_append h.1
        (by rw [List.map_map]; exact List.map_id r.fws) hf (Bool.eq_false_iff.mpr h1)
    · rw [hau]
      exact nodup_usage_append h.2.1
        (by rw [List.map_map]; exact List.map_id r.annots) ha (Bool.eq_false_iff.mpr h2)
    · rw [hsu]
      refine nodup_usage_append h.2.2 ?_ hs (Bool.eq_false_iff.mpr h3)
      rw [List.map_map]
      exact List.enum_map_snd r.structs

/-- A whole sequence of add_page calls preserves the attachment invariant. -/
theorem attached_once_add_pages (d0 : PdfDocument) (reqs : List PageReq)
    (h0 : attached_once d0)
    (hreqs : ∀ r ∈ reqs, r.fws.Nodup ∧ r.annots.Nodup ∧ r.structs.Nodup) :
    attached_once (add_pages d0 reqs) := by
  induction reqs generalizing d0 with
  | nil => exact h0
  | cons r rest ih =>
    exact ih (add_page_req d0 r).1
      (attached_once_add_page_req d0 r h0 (hreqs r (List.mem_cons_self r rest)).1
        (hreqs r (List.mem_cons_self r rest)).2.1
        (hreqs r (List.mem_cons_self r rest)).2.2)
      (fun q hq => hreqs q (List.mem_cons_of_mem r hq))

/-- C5: add_page fails with AnnotationReuse when a requested form widget or
annotation already sits in a usage map, fails with StructureReuse when —
absent such reuse — a requested structure item is already used, and so a
document whose usage maps mention each id at most once keeps that property
across any sequence of add_page calls whose requests carry duplicate-free
id sets: no widget, annotation or structure item is ever attached to two
pages. -/
theorem C5_page_attachment_unique (doc : PdfDocument) (rd ud cs : String)
    (fws annots structs : List Nat) (tr : Bool) (subnav : List Nat)
    (d0 : PdfDocument) (reqs : List PageReq) :
    (fws.any (key_used doc.form_use) = true ∨ annots.any (key_used doc.annot_use) = true →
        add_page doc rd ud cs fws annots structs tr subnav
          = (doc, some PdfErr.AnnotationReuse))
    ∧ (fws.any (key_used doc.form_use) = false →
        annots.any (key_used doc.annot_use) = false →
        structs.any (key_used doc.structure_use) = true →
        add_page doc rd ud cs fws annots structs tr subnav
          = (doc, some PdfErr.StructureReuse))
    ∧ (attached_once d0 →
        (∀ r ∈ reqs, r.fws.Nodup ∧ r.annots.Nodup ∧ r.structs.Nodup) →
        attached_once (add_pages d0 reqs)) := by
  refine ⟨?_, ?_, ?_⟩
  · intro h
    cases h with
    | inl h1 => simp [add_page, h1]
    | inr h2 =>
      by_cases h1 : fws.any (key_used doc.form_use) = true
      · simp [add_page, h1]
      · simp [add_page, h1, h2]
  · intro h1 h2 h3
    simp [add_page, h1, h2, h3]
  · exact fun h0 hreqs => attached_once_add_pages d0 reqs h0 hreqs

theorem C5_witness :
    (add_page c5_doc "<< >>" "<<\n" "" [7] [] [] false []
        = (c5_doc, some PdfErr.AnnotationReuse))
    ∧ (add_page c5_doc "<< >>" "<<\n" "" [] [] [5] false []
        = (c5_doc, some PdfErr.StructureReuse))
    ∧ attached_once (add_pages doc0
        [PageReq.mk "<< >>" "<<\n" "" [7] [8] [5] false []]) :=
  ⟨(C5_page_attachment_unique c5_doc "<< >>" "<<\n" "" [7] [] [] false [] doc0 []).1
      (Or.inl (by rfl)),
    (C5_page_attachment_unique c5_doc "<< >>" "<<\n" "" [] [] [5] false [] doc0 []).2.1
      (by rfl) (by rfl) (by rfl),
    (C5_page_attachment_unique doc0 "" "" "" [] [] [] false [] doc0
        [PageReq.mk "<< >>" "<<\n" "" [7] [8] [5] false []]).2.2
      (by refine ⟨?_, ?_, ?_⟩ <;> exact List.nodup_nil)
      (by intro r hr
          simp only [List.mem_singleton] at hr
          subst hr
          exact ⟨List.nodup_singleton 7, List.nodup_singleton 8, List.nodup_singleton 5⟩)⟩

end Capypdf
